import Mathlib

/-
Verification of the hotplug interrupt storm detection and mitigation code of
the i915 driver (drivers/gpu/drm/i915/intel_hotplug.c, Linux 4.18.0-80.el8)
against its natural-language specification.

The per-pin statistics, pin states, pending-event bitmasks and the device
structure are embedded shallowly; the interrupt handler's loop over pins and
the worker functions' loops over connectors become folds over explicit lists.
Time (jiffies) is passed explicitly to the functions that read it.  Kernel
infrastructure that is not part of the repository's src/ snapshot
(time_in_range, msecs_to_jiffies, the drm connector structure and poll flags,
mod_delayed_work) is modelled from the spec, as marked on each definition.
-/

set_option maxHeartbeats 1000000

namespace IntelHotplug

/-- Hotplug pins of the i915 driver (enum hpd_pin of the driver header).
`HPD_TV` aliases `HPD_NONE` in the header and is therefore omitted. -/
inductive HpdPin
  | HPD_NONE
  | HPD_CRT
  | HPD_SDVO_B
  | HPD_SDVO_C
  | HPD_PORT_A
  | HPD_PORT_B
  | HPD_PORT_C
  | HPD_PORT_D
  | HPD_PORT_E
  | HPD_PORT_F
deriving DecidableEq

/-- Numeric value of a pin in enum order; this is the bit index of the pin in
the u32 masks handled by the interrupt handler. -/
def HpdPin.toNat : HpdPin → Nat
  | .HPD_NONE => 0
  | .HPD_CRT => 1
  | .HPD_SDVO_B => 2
  | .HPD_SDVO_C => 3
  | .HPD_PORT_A => 4
  | .HPD_PORT_B => 5
  | .HPD_PORT_C => 6
  | .HPD_PORT_D => 7
  | .HPD_PORT_E => 8
  | .HPD_PORT_F => 9

/-- The pins visited by for_each_hpd_pin: every pin from HPD_NONE + 1 up to
HPD_NUM_PINS - 1, in order. -/
def hpdPins : List HpdPin :=
  [.HPD_CRT, .HPD_SDVO_B, .HPD_SDVO_C, .HPD_PORT_A, .HPD_PORT_B,
   .HPD_PORT_C, .HPD_PORT_D, .HPD_PORT_E, .HPD_PORT_F]

/-- Logical output ports (enum port). -/
inductive Port
  | PORT_NONE
  | PORT_A
  | PORT_B
  | PORT_C
  | PORT_D
  | PORT_E
  | PORT_F
deriving DecidableEq

/-- Numeric value of a port (PORT_A = 0, ...); the bit index used in
long_port_mask / short_port_mask.  PORT_NONE is -1 in the source and is never
used as a bit index (the handler guards with port != PORT_NONE first). -/
def Port.toNat : Port → Nat
  | .PORT_NONE => 0
  | .PORT_A => 0
  | .PORT_B => 1
  | .PORT_C => 2
  | .PORT_D => 3
  | .PORT_E => 4
  | .PORT_F => 5

/-- Per-pin interrupt state (the anonymous enum in struct i915_hotplug). -/
inductive HpdState
  | HPD_ENABLED
  | HPD_MARK_DISABLED
  | HPD_DISABLED
deriving DecidableEq

def HPD_STORM_DETECT_PERIOD : Nat := 1000

def HPD_STORM_REENABLE_DELAY : Nat := 2 * 60 * 1000

/-- Modelled from the spec: msecs_to_jiffies is kernel code of this repository
that is not under src/.  Time is modelled in milliseconds throughout, so the
conversion is the identity. -/
def msecs_to_jiffies (m : Nat) : Nat := m

/-- Modelled from the spec: the kernel macro time_in_range
(include/linux/jiffies.h) is code of this repository that is not under src/.
Per the spec, the accumulated count is valid exactly when now falls in the
half-open window [windowStart, windowStart + period). -/
def time_in_range (t start fin : Nat) : Prop := start ≤ t ∧ t < fin

instance (t start fin : Nat) : Decidable (time_in_range t start fin) :=
  inferInstanceAs (Decidable (start ≤ t ∧ t < fin))

/-- BIT(i) of the kernel sources. -/
def BIT (i : Nat) : Nat := 1 <<< i

def U32_MASK : Nat := 2 ^ 32 - 1

/-- Clearing bit i of a u32 value: `mask &= ~BIT(i)` in the source; on Nat the
32-bit complement of BIT i is `U32_MASK ^^^ BIT i`. -/
def clear_bit32 (n i : Nat) : Nat := n &&& (U32_MASK ^^^ BIT i)

/-- Per-pin statistics (struct i915_hotplug, array stats[HPD_NUM_PINS]). -/
structure HpdPinStats where
  last_jiffies : Nat
  count : Nat
  state : HpdState
deriving DecidableEq

/-- Modelled from the spec: the drm connector (drm core headers are not under
src/).  `polled` is the live polling mode drm_connector.polled;
`intel_polled` is the driver's stored preference intel_connector.polled;
`encoder` is the hpd pin of intel_connector->encoder, with none modelling a
NULL encoder; `mst_port` tells whether intel_connector->mst_port is set. -/
structure Connector where
  polled : Nat
  intel_polled : Nat
  encoder : Option HpdPin
  mst_port : Bool
deriving DecidableEq

/-- Modelled from the spec: the drm polling mode bits (drm core header). -/
def DRM_CONNECTOR_POLL_HPD : Nat := 1

def DRM_CONNECTOR_POLL_CONNECT : Nat := 2

def DRM_CONNECTOR_POLL_DISCONNECT : Nat := 4

/-- The hotplug bookkeeping of struct i915_hotplug.  `reenable_timer` models
the pending delayed reenable_work: some d means the work is scheduled with
delay d (in jiffies), none means it is not pending. -/
structure I915Hotplug where
  stats : HpdPin → HpdPinStats
  event_bits : Nat
  long_port_mask : Nat
  short_port_mask : Nat
  hpd_storm_threshold : Nat
  hpd_short_storm_enabled : Bool
  irq_port : Port → Bool
  reenable_timer : Option Nat

/-- The slice of struct drm_i915_private the hotplug code touches.
`hpd_irq_setup_present` tells whether the dev_priv->display.hpd_irq_setup
hook is non-NULL; `is_cnl_with_port_f` is the IS_CNL_WITH_PORT_F platform
test; `connectors` is the device's drm connector list. -/
structure DevPriv where
  hotplug : I915Hotplug
  is_cnl_with_port_f : Bool
  display_irqs_enabled : Bool
  hpd_irq_setup_present : Bool
  connectors : List Connector

/-- Update the stats entry of one pin, leaving every other entry alone. -/
def I915Hotplug.updStat (h : I915Hotplug) (pin : HpdPin) (f : HpdPinStats → HpdPinStats) :
    I915Hotplug :=
  { h with stats := fun q => if q = pin then f (h.stats q) else h.stats q }

/-- intel_hpd_pin_to_port: port hard associated with a pin, PORT_NONE if no
port is associated. -/
def intel_hpd_pin_to_port (is_cnl_with_port_f : Bool) (pin : HpdPin) : Port :=
  match pin with
  | .HPD_PORT_A => .PORT_A
  | .HPD_PORT_B => .PORT_B
  | .HPD_PORT_C => .PORT_C
  | .HPD_PORT_D => .PORT_D
  | .HPD_PORT_E => if is_cnl_with_port_f then .PORT_F else .PORT_E
  | .HPD_PORT_F => .PORT_F
  | _ => .PORT_NONE

/-- intel_hpd_pin_default: default pin associated with a port, HPD_NONE for an
unknown port (the MISSING_CASE branch). -/
def intel_hpd_pin_default (is_cnl_with_port_f : Bool) (port : Port) : HpdPin :=
  match port with
  | .PORT_A => .HPD_PORT_A
  | .PORT_B => .HPD_PORT_B
  | .PORT_C => .HPD_PORT_C
  | .PORT_D => .HPD_PORT_D
  | .PORT_E => .HPD_PORT_E
  | .PORT_F => if is_cnl_with_port_f then .HPD_PORT_E else .HPD_PORT_F
  | _ => .HPD_NONE

/-- Window maintenance step of intel_hpd_irq_storm_detect: if jiffies is not
in range [start, start + period], reset last_jiffies to now and count to 0. -/
def storm_window_hpd (dev : DevPriv) (jiffies : Nat) (pin : HpdPin) : I915Hotplug :=
  if ¬ time_in_range jiffies (dev.hotplug.stats pin).last_jiffies
      ((dev.hotplug.stats pin).last_jiffies + msecs_to_jiffies HPD_STORM_DETECT_PERIOD) then
    dev.hotplug.updStat pin (fun s => { s with last_jiffies := jiffies, count := 0 })
  else
    dev.hotplug

/-- Accumulation step of intel_hpd_irq_storm_detect: add the increment
(10 for a long pulse, 1 for a short pulse) to the pin's count. -/
def storm_count_hpd (dev : DevPriv) (jiffies : Nat) (pin : HpdPin) (long_hpd : Bool) :
    I915Hotplug :=
  (storm_window_hpd dev jiffies pin).updStat pin
    (fun s => { s with count := s.count + (if long_hpd then 10 else 1) })

/-- intel_hpd_irq_storm_detect: gather stats and detect an HPD IRQ storm on a
pin.  Returns the updated device state and whether a storm was detected. -/
def intel_hpd_irq_storm_detect (dev : DevPriv) (jiffies : Nat) (pin : HpdPin)
    (long_hpd : Bool) : DevPriv × Bool :=
  if dev.hotplug.hpd_storm_threshold = 0 ∨
      (long_hpd = false ∧ dev.hotplug.hpd_short_storm_enabled = false) then
    (dev, false)
  else
    if dev.hotplug.hpd_storm_threshold <
        ((storm_count_hpd dev jiffies pin long_hpd).stats pin).count then
      ({ dev with hotplug := ((storm_count_hpd dev jiffies pin long_hpd).updStat pin
          (fun s => { s with state := HpdState.HPD_MARK_DISABLED })) }, true)
    else
      ({ dev with hotplug := storm_count_hpd dev jiffies pin long_hpd }, false)

/-- intel_hpd_disable: administrative disable of a pin; returns whether the
state actually changed. -/
def intel_hpd_disable (dev : DevPriv) (pin : HpdPin) : DevPriv × Bool :=
  if pin = HpdPin.HPD_NONE then
    (dev, false)
  else
    if (dev.hotplug.stats pin).state = HpdState.HPD_ENABLED then
      ({ dev with hotplug := (dev.hotplug.updStat pin
          (fun s => { s with state := HpdState.HPD_DISABLED })) }, true)
    else
      (dev, false)

/-- intel_hpd_enable: administrative enable of a pin. -/
def intel_hpd_enable (dev : DevPriv) (pin : HpdPin) : DevPriv :=
  if pin = HpdPin.HPD_NONE then
    dev
  else
    { dev with hotplug := (dev.hotplug.updStat pin
        (fun s => { s with state := HpdState.HPD_ENABLED })) }

/-- Loop state of intel_hpd_irq_storm_switch_to_polling: the hotplug
bookkeeping, the connectors already processed, and the hpd_disabled flag. -/
structure SwitchLoopState where
  hpd : I915Hotplug
  conns : List Connector
  hpd_disabled : Bool

/-- One connector iteration of intel_hpd_irq_storm_switch_to_polling. -/
def switchConnStep (st : SwitchLoopState) (c : Connector) : SwitchLoopState :=
  if c.polled ≠ DRM_CONNECTOR_POLL_HPD then
    { st with conns := st.conns ++ [c] }
  else
    match c.encoder with
    | none => { st with conns := st.conns ++ [c] }
    | some pin =>
      if pin = HpdPin.HPD_NONE ∨ (st.hpd.stats pin).state ≠ HpdState.HPD_MARK_DISABLED then
        { st with conns := st.conns ++ [c] }
      else
        { hpd := st.hpd.updStat pin (fun s => { s with state := HpdState.HPD_DISABLED }),
          conns := st.conns ++
            [{ c with polled := DRM_CONNECTOR_POLL_CONNECT ||| DRM_CONNECTOR_POLL_DISCONNECT }],
          hpd_disabled := true }

/-- Result of intel_hpd_irq_storm_switch_to_polling: the updated device and
whether drm_kms_helper_poll_enable was called. -/
structure SwitchResult where
  dev : DevPriv
  poll_enable_called : Bool

/-- intel_hpd_irq_storm_switch_to_polling: transition every storm-marked pin
that backs a hotplug-polled connector to HPD_DISABLED, switch that connector
to connect/disconnect polling, and if anything was switched enable polling and
(re)schedule the reenable work.  The mod_delayed_work call is modelled from
the spec (kernel code not under src/): it replaces any pending schedule. -/
def intel_hpd_irq_storm_switch_to_polling (dev : DevPriv) : SwitchResult :=
  let st := dev.connectors.foldl switchConnStep ⟨dev.hotplug, [], false⟩
  if st.hpd_disabled = true then
    { dev := { dev with
        hotplug := { st.hpd with
          reenable_timer := some (msecs_to_jiffies HPD_STORM_REENABLE_DELAY) },
        connectors := st.conns },
      poll_enable_called := true }
  else
    { dev := { dev with hotplug := st.hpd, connectors := st.conns },
      poll_enable_called := false }

/-- Loop state of intel_hpd_irq_storm_reenable_work. -/
structure ReenableLoopState where
  hpd : I915Hotplug
  conns : List Connector

/-- The connector update of the reenable work's inner loop: a non-MST
connector whose encoder sits on the reenabled pin gets its stored polling
preference back, defaulting to DRM_CONNECTOR_POLL_HPD when the preference is
zero. -/
def reenableConnUpdate (i : HpdPin) (c : Connector) : Connector :=
  if c.mst_port = false ∧ c.encoder = some i then
    { c with polled :=
        if c.intel_polled = 0 then DRM_CONNECTOR_POLL_HPD else c.intel_polled }
  else c

/-- One pin iteration of intel_hpd_irq_storm_reenable_work. -/
def reenablePinStep (st : ReenableLoopState) (i : HpdPin) : ReenableLoopState :=
  if (st.hpd.stats i).state ≠ HpdState.HPD_DISABLED then
    st
  else
    { hpd := st.hpd.updStat i (fun s => { s with state := HpdState.HPD_ENABLED }),
      conns := st.conns.map (reenableConnUpdate i) }

/-- Result of intel_hpd_irq_storm_reenable_work: the updated device and the
number of invocations of the hpd_irq_setup hook during the pass. -/
structure ReenableResult where
  dev : DevPriv
  hpd_irq_setup_calls : Nat

/-- intel_hpd_irq_storm_reenable_work: reenable every HPD_DISABLED pin,
restore the polling preference of its connectors, then invoke the interrupt
mask setup hook once if display interrupts are enabled and the hook exists. -/
def intel_hpd_irq_storm_reenable_work (dev : DevPriv) : ReenableResult :=
  let st := hpdPins.foldl reenablePinStep ⟨dev.hotplug, dev.connectors⟩
  { dev := { dev with hotplug := st.hpd, connectors := st.conns },
    hpd_irq_setup_calls :=
      if dev.display_irqs_enabled = true ∧ dev.hpd_irq_setup_present = true then 1 else 0 }

/-- Whether a pin is a digital port pin: its port exists and
hotplug.irq_port[port] is registered. -/
def is_dig_port (dev : DevPriv) (i : HpdPin) : Bool :=
  let port := intel_hpd_pin_to_port dev.is_cnl_with_port_f i
  decide (port ≠ Port.PORT_NONE) && dev.hotplug.irq_port port

/-- The long/short classification the handler uses for a pin: for a digital
port pin the bit of long_mask, otherwise long (the handler initializes
long_hpd = true and only overwrites it for digital ports). -/
def hpd_long_flag (dev : DevPriv) (long_mask : Nat) (i : HpdPin) : Bool :=
  if is_dig_port dev i then long_mask.testBit i.toNat else true

/-- Recording of a digital pulse into the accumulating per-port masks. -/
def record_dig_port (dev : DevPriv) (i : HpdPin) (long_hpd : Bool) : DevPriv :=
  let port := intel_hpd_pin_to_port dev.is_cnl_with_port_f i
  if long_hpd then
    { dev with hotplug := { dev.hotplug with
        long_port_mask := dev.hotplug.long_port_mask ||| BIT port.toNat } }
  else
    { dev with hotplug := { dev.hotplug with
        short_port_mask := dev.hotplug.short_port_mask ||| BIT port.toNat } }

/-- event_bits |= BIT(i). -/
def set_event_bit (dev : DevPriv) (i : HpdPin) : DevPriv :=
  { dev with hotplug := { dev.hotplug with
      event_bits := dev.hotplug.event_bits ||| BIT i.toNat } }

/-- event_bits &= ~BIT(i). -/
def clear_event_bit (dev : DevPriv) (i : HpdPin) : DevPriv :=
  { dev with hotplug := { dev.hotplug with
      event_bits := clear_bit32 dev.hotplug.event_bits i.toNat } }

/-- Loop state of intel_hpd_irq_handler. -/
structure IrqLoopState where
  dev : DevPriv
  storm_detected : Bool
  queue_dig : Bool
  queue_hp : Bool

/-- The digital-port block of one handler iteration: for a digital pin,
record the pulse into the per-port masks and mark digital work pending. -/
def irq_step_dig (long_mask : Nat) (s : IrqLoopState) (i : HpdPin) : IrqLoopState :=
  if is_dig_port s.dev i = true then
    { s with queue_dig := true,
             dev := record_dig_port s.dev i (hpd_long_flag s.dev long_mask i) }
  else s

/-- The generic-event block of one handler iteration: a non-digital pin is
ORed into event_bits and generic work is marked pending. -/
def irq_step_mid (s1 : IrqLoopState) (i : HpdPin) (dig : Bool) : IrqLoopState :=
  if dig = false then
    { s1 with queue_hp := true, dev := set_event_bit s1.dev i }
  else s1

/-- The storm-detection block of one handler iteration: run the detector; on a
storm clear the pin's event bit and mark the storm plus generic work. -/
def irq_step_tail (jiffies : Nat) (s1 : IrqLoopState) (i : HpdPin)
    (dig long_hpd : Bool) : IrqLoopState :=
  if (intel_hpd_irq_storm_detect (irq_step_mid s1 i dig).dev jiffies i long_hpd).2 = true then
    { irq_step_mid s1 i dig with
      dev := clear_event_bit
        (intel_hpd_irq_storm_detect (irq_step_mid s1 i dig).dev jiffies i long_hpd).1 i,
      storm_detected := true, queue_hp := true }
  else
    { irq_step_mid s1 i dig with
      dev := (intel_hpd_irq_storm_detect (irq_step_mid s1 i dig).dev jiffies i long_hpd).1 }

/-- One pin iteration of intel_hpd_irq_handler's for_each_hpd_pin loop: skip
pins that did not fire, record digital pulses, skip pins not in HPD_ENABLED
(covering HPD_DISABLED after its diagnostic, and HPD_MARK_DISABLED), then run
the generic-event and storm-detection blocks. -/
def intel_hpd_irq_handler_step (jiffies pin_mask long_mask : Nat)
    (s : IrqLoopState) (i : HpdPin) : IrqLoopState :=
  if pin_mask.testBit i.toNat = false then
    s
  else
    if ((irq_step_dig long_mask s i).dev.hotplug.stats i).state = HpdState.HPD_DISABLED then
      irq_step_dig long_mask s i
    else
      if ¬ ((irq_step_dig long_mask s i).dev.hotplug.stats i).state = HpdState.HPD_ENABLED then
        irq_step_dig long_mask s i
      else
        irq_step_tail jiffies (irq_step_dig long_mask s i) i
          (is_dig_port s.dev i) (hpd_long_flag s.dev long_mask i)

/-- Result of intel_hpd_irq_handler: updated device, the loop flags, and the
number of invocations of the hpd_irq_setup hook.  queue_dig / queue_hp are
exactly whether the digital-port work and the hotplug work were enqueued. -/
structure IrqHandlerResult where
  dev : DevPriv
  storm_detected : Bool
  queue_dig : Bool
  queue_hp : Bool
  hpd_irq_setup_calls : Nat

/-- intel_hpd_irq_handler: the main hotplug irq handler.  An empty pin_mask
returns immediately.  After the loop, the hpd_irq_setup hook is called when a
storm was detected and display interrupts are enabled (the source does not
test the hook for NULL at this call site). -/
def intel_hpd_irq_handler (dev : DevPriv) (jiffies pin_mask long_mask : Nat) :
    IrqHandlerResult :=
  if pin_mask = 0 then
    ⟨dev, false, false, false, 0⟩
  else
    let s := hpdPins.foldl (intel_hpd_irq_handler_step jiffies pin_mask long_mask)
      ⟨dev, false, false, false⟩
    { dev := s.dev, storm_detected := s.storm_detected, queue_dig := s.queue_dig,
      queue_hp := s.queue_hp,
      hpd_irq_setup_calls :=
        if s.storm_detected = true ∧ s.dev.display_irqs_enabled = true then 1 else 0 }

/-- The inputs of one handler iteration for pin i that other iterations never
modify: the pin's own stats entry and the global configuration read by the
iteration. -/
def agreeOn (d0 d : DevPriv) (i : HpdPin) : Prop :=
  d.hotplug.stats i = d0.hotplug.stats i ∧
  d.hotplug.hpd_storm_threshold = d0.hotplug.hpd_storm_threshold ∧
  d.hotplug.hpd_short_storm_enabled = d0.hotplug.hpd_short_storm_enabled ∧
  d.hotplug.irq_port = d0.hotplug.irq_port ∧
  d.is_cnl_with_port_f = d0.is_cnl_with_port_f

/-- A device with threshold 5, short-storm detection enabled, all pins enabled
with zeroed counters, no digital ports and no connectors. -/
def devA : DevPriv where
  hotplug :=
    { stats := fun _ => ⟨0, 0, HpdState.HPD_ENABLED⟩
      event_bits := 0
      long_port_mask := 0
      short_port_mask := 0
      hpd_storm_threshold := 5
      hpd_short_storm_enabled := true
      irq_port := fun _ => false
      reenable_timer := none }
  is_cnl_with_port_f := false
  display_irqs_enabled := true
  hpd_irq_setup_present := true
  connectors := []

/-- Like devA but every pin already carries a count of 3 from time 0. -/
def devB : DevPriv :=
  { devA with hotplug := { devA.hotplug with
      stats := fun _ => ⟨0, 3, HpdState.HPD_ENABLED⟩ } }

/-- Like devA but with the storm threshold set to 0. -/
def devC : DevPriv :=
  { devA with hotplug := { devA.hotplug with hpd_storm_threshold := 0 } }

/-- Like devA but pin HPD_PORT_A is in state HPD_MARK_DISABLED. -/
def devD : DevPriv :=
  { devA with hotplug := { devA.hotplug with
      stats := fun p =>
        if p = HpdPin.HPD_PORT_A then ⟨0, 0, HpdState.HPD_MARK_DISABLED⟩
        else ⟨0, 0, HpdState.HPD_ENABLED⟩ } }

/-- A hotplug-polled connector with an encoder on pin HPD_PORT_A. -/
def connF : Connector where
  polled := DRM_CONNECTOR_POLL_HPD
  intel_polled := DRM_CONNECTOR_POLL_HPD
  encoder := some HpdPin.HPD_PORT_A
  mst_port := false

/-- devD extended with the connector connF. -/
def devF : DevPriv := { devD with connectors := [connF] }

/-- A connector in connect/disconnect polling mode with no stored polling
preference, attached to pin HPD_PORT_A. -/
def connH : Connector where
  polled := DRM_CONNECTOR_POLL_CONNECT ||| DRM_CONNECTOR_POLL_DISCONNECT
  intel_polled := 0
  encoder := some HpdPin.HPD_PORT_A
  mst_port := false

/-- Like devA but pin HPD_PORT_A is HPD_DISABLED and connH is attached. -/
def devH : DevPriv :=
  { devA with
    hotplug := { devA.hotplug with
      stats := fun p =>
        if p = HpdPin.HPD_PORT_A then ⟨0, 0, HpdState.HPD_DISABLED⟩
        else ⟨0, 0, HpdState.HPD_ENABLED⟩ }
    connectors := [connH] }

/-- Like devD (pin HPD_PORT_A marked disabled) but with PORT_A registered as a
digital port. -/
def devJ : DevPriv :=
  { devD with hotplug := { devD.hotplug with
      irq_port := fun pt => decide (pt = Port.PORT_A) } }

/- ------------------------------------------------------------------ -/
/- Helper lemmas about bit operations and the basic enumerations.     -/
/- ------------------------------------------------------------------ -/

theorem BIT_eq_two_pow (i : Nat) : BIT i = 2 ^ i := by
  simp [BIT, Nat.shiftLeft_eq]

theorem testBit_BIT (i k : Nat) : (BIT i).testBit k = decide (i = k) := by
  rw [BIT_eq_two_pow]; exact Nat.testBit_two_pow

theorem testBit_or_BIT_ne (a i k : Nat) (h : i ≠ k) :
    (a ||| BIT i).testBit k = a.testBit k := by
  simp [Nat.testBit_lor, testBit_BIT, h]

theorem testBit_or_BIT_self (a i : Nat) : (a ||| BIT i).testBit i = true := by
  simp [Nat.testBit_lor, testBit_BIT]

theorem testBit_or_BIT_mono (a i k : Nat) (h : a.testBit k = true) :
    (a ||| BIT i).testBit k = true := by
  simp [Nat.testBit_lor, h]

theorem testBit_U32_MASK (k : Nat) : U32_MASK.testBit k = decide (k < 32) :=
  Nat.testBit_two_pow_sub_one 32 k

theorem testBit_clear_bit32_self (a i : Nat) (hi : i < 32) :
    (clear_bit32 a i).testBit i = false := by
  simp [clear_bit32, Nat.testBit_land, Nat.testBit_xor, testBit_U32_MASK,
    testBit_BIT, hi]

theorem testBit_clear_bit32_ne (a i k : Nat) (hk : k < 32) (h : i ≠ k) :
    (clear_bit32 a i).testBit k = a.testBit k := by
  simp [clear_bit32, Nat.testBit_land, Nat.testBit_xor, testBit_U32_MASK,
    testBit_BIT, hk, h]

theorem HpdPin.toNat_lt_32 : ∀ p : HpdPin, p.toNat < 32 := by
  intro p; cases p <;> decide

theorem HpdPin.toNat_inj : ∀ p q : HpdPin, p.toNat = q.toNat → p = q := by
  intro p q h
  cases p <;> cases q <;> first | rfl | exact absurd h (by decide)

theorem hpdPins_nodup : hpdPins.Nodup := by decide

/- ------------------------------------------------------------------ -/
/- Projection lemmas for updStat and the storm detector.              -/
/- ------------------------------------------------------------------ -/

@[simp] theorem updStat_stats_self (h : I915Hotplug) (pin : HpdPin)
    (f : HpdPinStats → HpdPinStats) : (h.updStat pin f).stats pin = f (h.stats pin) := by
  simp [I915Hotplug.updStat]

@[simp] theorem updStat_stats_ne (h : I915Hotplug) (pin : HpdPin)
    (f : HpdPinStats → HpdPinStats) (q : HpdPin) (hq : q ≠ pin) :
    (h.updStat pin f).stats q = h.stats q := by
  simp [I915Hotplug.updStat, hq]

@[simp] theorem updStat_event_bits (h : I915Hotplug) (pin : HpdPin)
    (f : HpdPinStats → HpdPinStats) : (h.updStat pin f).event_bits = h.event_bits := rfl

@[simp] theorem updStat_long_port_mask (h : I915Hotplug) (pin : HpdPin)
    (f : HpdPinStats → HpdPinStats) : (h.updStat pin f).long_port_mask = h.long_port_mask := rfl

@[simp] theorem updStat_short_port_mask (h : I915Hotplug) (pin : HpdPin)
    (f : HpdPinStats → HpdPinStats) : (h.updStat pin f).short_port_mask = h.short_port_mask := rfl

@[simp] theorem updStat_threshold (h : I915Hotplug) (pin : HpdPin)
    (f : HpdPinStats → HpdPinStats) :
    (h.updStat pin f).hpd_storm_threshold = h.hpd_storm_threshold := rfl

@[simp] theorem updStat_short_enabled (h : I915Hotplug) (pin : HpdPin)
    (f : HpdPinStats → HpdPinStats) :
    (h.updStat pin f).hpd_short_storm_enabled = h.hpd_short_storm_enabled := rfl

@[simp] theorem updStat_irq_port (h : I915Hotplug) (pin : HpdPin)
    (f : HpdPinStats → HpdPinStats) : (h.updStat pin f).irq_port = h.irq_port := rfl

@[simp] theorem updStat_reenable_timer (h : I915Hotplug) (pin : HpdPin)
    (f : HpdPinStats → HpdPinStats) : (h.updStat pin f).reenable_timer = h.reenable_timer := rfl

theorem storm_window_stats_ne (dev : DevPriv) (j : Nat) (p q : HpdPin) (hq : q ≠ p) :
    (storm_window_hpd dev j p).stats q = dev.hotplug.stats q := by
  unfold storm_window_hpd; split <;> simp [hq]

theorem storm_count_stats_ne (dev : DevPriv) (j : Nat) (p : HpdPin) (L : Bool)
    (q : HpdPin) (hq : q ≠ p) :
    (storm_count_hpd dev j p L).stats q = dev.hotplug.stats q := by
  unfold storm_count_hpd
  rw [updStat_stats_ne _ _ _ _ hq, storm_window_stats_ne _ _ _ _ hq]

theorem storm_count_self (dev : DevPriv) (j : Nat) (p : HpdPin) (L : Bool) :
    ((storm_count_hpd dev j p L).stats p).count =
      (if time_in_range j (dev.hotplug.stats p).last_jiffies
          ((dev.hotplug.stats p).last_jiffies + msecs_to_jiffies HPD_STORM_DETECT_PERIOD)
       then (dev.hotplug.stats p).count else 0) + (if L then 10 else 1) := by
  unfold storm_count_hpd storm_window_hpd
  split_ifs with h h2 <;> simp_all

@[simp] theorem storm_window_event_bits (dev : DevPriv) (j : Nat) (p : HpdPin) :
    (storm_window_hpd dev j p).event_bits = dev.hotplug.event_bits := by
  unfold storm_window_hpd; split <;> rfl

@[simp] theorem storm_window_long_mask (dev : DevPriv) (j : Nat) (p : HpdPin) :
    (storm_window_hpd dev j p).long_port_mask = dev.hotplug.long_port_mask := by
  unfold storm_window_hpd; split <;> rfl

@[simp] theorem storm_window_short_mask (dev : DevPriv) (j : Nat) (p : HpdPin) :
    (storm_window_hpd dev j p).short_port_mask = dev.hotplug.short_port_mask := by
  unfold storm_window_hpd; split <;> rfl

@[simp] theorem storm_window_threshold (dev : DevPriv) (j : Nat) (p : HpdPin) :
    (storm_window_hpd dev j p).hpd_storm_threshold = dev.hotplug.hpd_storm_threshold := by
  unfold storm_window_hpd; split <;> rfl

@[simp] theorem storm_window_short_enabled (dev : DevPriv) (j : Nat) (p : HpdPin) :
    (storm_window_hpd dev j p).hpd_short_storm_enabled = dev.hotplug.hpd_short_storm_enabled := by
  unfold storm_window_hpd; split <;> rfl

@[simp] theorem storm_window_irq_port (dev : DevPriv) (j : Nat) (p : HpdPin) :
    (storm_window_hpd dev j p).irq_port = dev.hotplug.irq_port := by
  unfold storm_window_hpd; split <;> rfl

@[simp] theorem storm_window_timer (dev : DevPriv) (j : Nat) (p : HpdPin) :
    (storm_window_hpd dev j p).reenable_timer = dev.hotplug.reenable_timer := by
  unfold storm_window_hpd; split <;> rfl

@[simp] theorem storm_count_event_bits (dev : DevPriv) (j : Nat) (p : HpdPin) (L : Bool) :
    (storm_count_hpd dev j p L).event_bits = dev.hotplug.event_bits := by
  unfold storm_count_hpd; simp

@[simp] theorem storm_count_long_mask (dev : DevPriv) (j : Nat) (p : HpdPin) (L : Bool) :
    (storm_count_hpd dev j p L).long_port_mask = dev.hotplug.long_port_mask := by
  unfold storm_count_hpd; simp

@[simp] theorem storm_count_short_mask (dev : DevPriv) (j : Nat) (p : HpdPin) (L : Bool) :
    (storm_count_hpd dev j p L).short_port_mask = dev.hotplug.short_port_mask := by
  unfold storm_count_hpd; simp

@[simp] theorem storm_count_threshold (dev : DevPriv) (j : Nat) (p : HpdPin) (L : Bool) :
    (storm_count_hpd dev j p L).hpd_storm_threshold = dev.hotplug.hpd_storm_threshold := by
  unfold storm_count_hpd; simp

@[simp] theorem storm_count_short_enabled (dev : DevPriv) (j : Nat) (p : HpdPin) (L : Bool) :
    (storm_count_hpd dev j p L).hpd_short_storm_enabled = dev.hotplug.hpd_short_storm_enabled := by
  unfold storm_count_hpd; simp

@[simp] theorem storm_count_irq_port (dev : DevPriv) (j : Nat) (p : HpdPin) (L : Bool) :
    (storm_count_hpd dev j p L).irq_port = dev.hotplug.irq_port := by
  unfold storm_count_hpd; simp

@[simp] theorem storm_count_timer (dev : DevPriv) (j : Nat) (p : HpdPin) (L : Bool) :
    (storm_count_hpd dev j p L).reenable_timer = dev.hotplug.reenable_timer := by
  unfold storm_count_hpd; simp

theorem detect_fst_stats_ne (dev : DevPriv) (j : Nat) (p : HpdPin) (L : Bool)
    (q : HpdPin) (hq : q ≠ p) :
    ((intel_hpd_irq_storm_detect dev j p L).1).hotplug.stats q = dev.hotplug.stats q := by
  unfold intel_hpd_irq_storm_detect
  split_ifs <;> simp [storm_count_stats_ne _ _ _ _ _ hq, hq]

@[simp] theorem detect_fst_event_bits (dev : DevPriv) (j : Nat) (p : HpdPin) (L : Bool) :
    ((intel_hpd_irq_storm_detect dev j p L).1).hotplug.event_bits = dev.hotplug.event_bits := by
  unfold intel_hpd_irq_storm_detect; split_ifs <;> simp

@[simp] theorem detect_fst_long_mask (dev : DevPriv) (j : Nat) (p : HpdPin) (L : Bool) :
    ((intel_hpd_irq_storm_detect dev j p L).1).hotplug.long_port_mask
      = dev.hotplug.long_port_mask := by
  unfold intel_hpd_irq_storm_detect; split_ifs <;> simp

@[simp] theorem detect_fst_short_mask (dev : DevPriv) (j : Nat) (p : HpdPin) (L : Bool) :
    ((intel_hpd_irq_storm_detect dev j p L).1).hotplug.short_port_mask
      = dev.hotplug.short_port_mask := by
  unfold intel_hpd_irq_storm_detect; split_ifs <;> simp

@[simp] theorem detect_fst_threshold (dev : DevPriv) (j : Nat) (p : HpdPin) (L : Bool) :
    ((intel_hpd_irq_storm_detect dev j p L).1).hotplug.hpd_storm_threshold
      = dev.hotplug.hpd_storm_threshold := by
  unfold intel_hpd_irq_storm_detect; split_ifs <;> simp

@[simp] theorem detect_fst_short_enabled (dev : DevPriv) (j : Nat) (p : HpdPin) (L : Bool) :
    ((intel_hpd_irq_storm_detect dev j p L).1).hotplug.hpd_short_storm_enabled
      = dev.hotplug.hpd_short_storm_enabled := by
  unfold intel_hpd_irq_storm_detect; split_ifs <;> simp

@[simp] theorem detect_fst_irq_port (dev : DevPriv) (j : Nat) (p : HpdPin) (L : Bool) :
    ((intel_hpd_irq_storm_detect dev j p L).1).hotplug.irq_port = dev.hotplug.irq_port := by
  unfold intel_hpd_irq_storm_detect; split_ifs <;> simp

@[simp] theorem detect_fst_timer (dev : DevPriv) (j : Nat) (p : HpdPin) (L : Bool) :
    ((intel_hpd_irq_storm_detect dev j p L).1).hotplug.reenable_timer
      = dev.hotplug.reenable_timer := by
  unfold intel_hpd_irq_storm_detect; split_ifs <;> simp

@[simp] theorem detect_fst_is_cnl (dev : DevPriv) (j : Nat) (p : HpdPin) (L : Bool) :
    ((intel_hpd_irq_storm_detect dev j p L).1).is_cnl_with_port_f = dev.is_cnl_with_port_f := by
  unfold intel_hpd_irq_storm_detect; split_ifs <;> rfl

@[simp] theorem detect_fst_display (dev : DevPriv) (j : Nat) (p : HpdPin) (L : Bool) :
    ((intel_hpd_irq_storm_detect dev j p L).1).display_irqs_enabled
      = dev.display_irqs_enabled := by
  unfold intel_hpd_irq_storm_detect; split_ifs <;> rfl

@[simp] theorem detect_fst_present (dev : DevPriv) (j : Nat) (p : HpdPin) (L : Bool) :
    ((intel_hpd_irq_storm_detect dev j p L).1).hpd_irq_setup_present
      = dev.hpd_irq_setup_present := by
  unfold intel_hpd_irq_storm_detect; split_ifs <;> rfl

@[simp] theorem detect_fst_connectors (dev : DevPriv) (j : Nat) (p : HpdPin) (L : Bool) :
    ((intel_hpd_irq_storm_detect dev j p L).1).connectors = dev.connectors := by
  unfold intel_hpd_irq_storm_detect; split_ifs <;> rfl

/-- The storm verdict of the detector depends only on the pin's own stats, the
threshold and the short-storm flag of the device. -/
theorem detect_snd_congr (d1 d2 : DevPriv) (j : Nat) (p : HpdPin) (L : Bool)
    (hs : d1.hotplug.stats p = d2.hotplug.stats p)
    (ht : d1.hotplug.hpd_storm_threshold = d2.hotplug.hpd_storm_threshold)
    (he : d1.hotplug.hpd_short_storm_enabled = d2.hotplug.hpd_short_storm_enabled) :
    (intel_hpd_irq_storm_detect d1 j p L).2 = (intel_hpd_irq_storm_detect d2 j p L).2 := by
  have hc : ((storm_count_hpd d1 j p L).stats p).count
      = ((storm_count_hpd d2 j p L).stats p).count := by
    rw [storm_count_self, storm_count_self, hs]
  unfold intel_hpd_irq_storm_detect
  rw [ht, he, hc]
  split_ifs <;> rfl

/- ------------------------------------------------------------------ -/
/- Claims about the storm detector.                                   -/
/- ------------------------------------------------------------------ -/

/-- Claim C1: for every pin, threshold T > 0 and pulse whose kind passes the
gating (short pulses need the short-storm flag), when the detector runs at a
time inside the pin's current valid window (the spec's data-model invariant
under which eventCount is meaningful), it adds 10 to the pin's eventCount for
a long pulse and 1 for a short pulse, returns true exactly when the resulting
count exceeds the threshold, in which case the pin's state becomes
HPD_MARK_DISABLED; otherwise it returns false and leaves the state unchanged. -/
theorem C1_storm_detect_weight (dev : DevPriv) (jiffies : Nat) (pin : HpdPin)
    (long_hpd : Bool)
    (hT : 0 < dev.hotplug.hpd_storm_threshold)
    (hS : long_hpd = true ∨ dev.hotplug.hpd_short_storm_enabled = true)
    (hW : time_in_range jiffies (dev.hotplug.stats pin).last_jiffies
        ((dev.hotplug.stats pin).last_jiffies + msecs_to_jiffies HPD_STORM_DETECT_PERIOD)) :
    (((intel_hpd_irq_storm_detect dev jiffies pin long_hpd).1.hotplug.stats pin).count
        = (dev.hotplug.stats pin).count + (if long_hpd then 10 else 1)) ∧
    ((intel_hpd_irq_storm_detect dev jiffies pin long_hpd).2 = true ↔
        dev.hotplug.hpd_storm_threshold
          < (dev.hotplug.stats pin).count + (if long_hpd then 10 else 1)) ∧
    ((intel_hpd_irq_storm_detect dev jiffies pin long_hpd).2 = true →
        ((intel_hpd_irq_storm_detect dev jiffies pin long_hpd).1.hotplug.stats pin).state
          = HpdState.HPD_MARK_DISABLED) ∧
    ((intel_hpd_irq_storm_detect dev jiffies pin long_hpd).2 = false →
        ((intel_hpd_irq_storm_detect dev jiffies pin long_hpd).1.hotplug.stats pin).state
          = (dev.hotplug.stats pin).state) := by
  have hgate : ¬ (dev.hotplug.hpd_storm_threshold = 0 ∨
      (long_hpd = false ∧ dev.hotplug.hpd_short_storm_enabled = false)) := by
    rintro (h0 | ⟨hl, he⟩)
    · omega
    · rcases hS with h | h
      · rw [h] at hl; cases hl
      · rw [h] at he; cases he
  have hwin : storm_window_hpd dev jiffies pin = dev.hotplug := by
    unfold storm_window_hpd
    rw [if_neg (not_not_intro hW)]
  have hcount : ((storm_count_hpd dev jiffies pin long_hpd).stats pin).count
      = (dev.hotplug.stats pin).count + (if long_hpd then 10 else 1) := by
    unfold storm_count_hpd; rw [hwin]; simp
  have hstate : ((storm_count_hpd dev jiffies pin long_hpd).stats pin).state
      = (dev.hotplug.stats pin).state := by
    unfold storm_count_hpd; rw [hwin]; simp
  unfold intel_hpd_irq_storm_detect
  rw [if_neg hgate]
  by_cases hcmp : dev.hotplug.hpd_storm_threshold <
      ((storm_count_hpd dev jiffies pin long_hpd).stats pin).count
  · rw [if_pos hcmp]
    rw [hcount] at hcmp
    refine ⟨?_, ?_, ?_, ?_⟩
    · simp [hcount]
    · simp [hcmp]
    · intro _; simp
    · intro h; simp at h
  · rw [if_neg hcmp]
    rw [hcount] at hcmp
    refine ⟨?_, ?_, ?_, ?_⟩
    · simp [hcount]
    · simp [hcmp]
    · intro h; simp at h
    · intro _; simp [hstate]

/-- Witness for C1: on devA (threshold 5, fresh window), a long pulse at time 0
on pin HPD_PORT_A takes the count from 0 to 10 and reports a storm. -/
theorem C1_storm_detect_weight_witness :
    (((intel_hpd_irq_storm_detect devA 0 HpdPin.HPD_PORT_A true).1.hotplug.stats
        HpdPin.HPD_PORT_A).count
      = (devA.hotplug.stats HpdPin.HPD_PORT_A).count + (if true then 10 else 1)) ∧
    ((intel_hpd_irq_storm_detect devA 0 HpdPin.HPD_PORT_A true).2 = true ↔
      devA.hotplug.hpd_storm_threshold
        < (devA.hotplug.stats HpdPin.HPD_PORT_A).count + (if true then 10 else 1)) ∧
    ((intel_hpd_irq_storm_detect devA 0 HpdPin.HPD_PORT_A true).2 = true →
      ((intel_hpd_irq_storm_detect devA 0 HpdPin.HPD_PORT_A true).1.hotplug.stats
          HpdPin.HPD_PORT_A).state = HpdState.HPD_MARK_DISABLED) ∧
    ((intel_hpd_irq_storm_detect devA 0 HpdPin.HPD_PORT_A true).2 = false →
      ((intel_hpd_irq_storm_detect devA 0 HpdPin.HPD_PORT_A true).1.hotplug.stats
          HpdPin.HPD_PORT_A).state = (devA.hotplug.stats HpdPin.HPD_PORT_A).state) :=
  C1_storm_detect_weight devA 0 HpdPin.HPD_PORT_A true (by decide) (Or.inl rfl) (by decide)

/-- Claim C2: whenever the gated storm detector runs at a time outside the
half-open window [windowStart, windowStart + 1000 ms), it first resets the
window start to now and the count to 0 and only then accumulates, so the new
count is exactly the weight of the current pulse: pulses separated by a gap
longer than one detection period never accumulate into the same count. -/
theorem C2_window_reset (dev : DevPriv) (jiffies : Nat) (pin : HpdPin) (long_hpd : Bool)
    (hT : 0 < dev.hotplug.hpd_storm_threshold)
    (hS : long_hpd = true ∨ dev.hotplug.hpd_short_storm_enabled = true)
    (hW : ¬ time_in_range jiffies (dev.hotplug.stats pin).last_jiffies
        ((dev.hotplug.stats pin).last_jiffies + msecs_to_jiffies HPD_STORM_DETECT_PERIOD)) :
    (((intel_hpd_irq_storm_detect dev jiffies pin long_hpd).1.hotplug.stats pin).last_jiffies
        = jiffies) ∧
    (((intel_hpd_irq_storm_detect dev jiffies pin long_hpd).1.hotplug.stats pin).count
        = (if long_hpd then 10 else 1)) := by
  have hgate : ¬ (dev.hotplug.hpd_storm_threshold = 0 ∨
      (long_hpd = false ∧ dev.hotplug.hpd_short_storm_enabled = false)) := by
    rintro (h0 | ⟨hl, he⟩)
    · omega
    · rcases hS with h | h
      · rw [h] at hl; cases hl
      · rw [h] at he; cases he
  have hwin : storm_window_hpd dev jiffies pin
      = dev.hotplug.updStat pin (fun s => { s with last_jiffies := jiffies, count := 0 }) := by
    unfold storm_window_hpd
    rw [if_pos (by exact hW)]
  have hlast : ((storm_count_hpd dev jiffies pin long_hpd).stats pin).last_jiffies = jiffies := by
    unfold storm_count_hpd; rw [hwin]; simp
  have hcnt : ((storm_count_hpd dev jiffies pin long_hpd).stats pin).count
      = (if long_hpd then 10 else 1) := by
    unfold storm_count_hpd; rw [hwin]; simp
  unfold intel_hpd_irq_storm_detect
  rw [if_neg hgate]
  split_ifs <;> simp_all [hlast, hcnt]

/-- Witness for C2: on devB every pin carries count 3 from a window started at
time 0; a long pulse at time 5000 resets the window to start 5000 and the
count becomes 10, not 13. -/
theorem C2_window_reset_witness :
    (((intel_hpd_irq_storm_detect devB 5000 HpdPin.HPD_PORT_A true).1.hotplug.stats
        HpdPin.HPD_PORT_A).last_jiffies = 5000) ∧
    (((intel_hpd_irq_storm_detect devB 5000 HpdPin.HPD_PORT_A true).1.hotplug.stats
        HpdPin.HPD_PORT_A).count = (if true then 10 else 1)) :=
  C2_window_reset devB 5000 HpdPin.HPD_PORT_A true (by decide) (Or.inl rfl) (by decide)

/-- Claim C3: a zero threshold disables detection entirely (false returned,
device untouched, for either pulse kind); with the short-storm flag clear a
short pulse returns false and leaves the device untouched, while a long pulse
still reports a storm whenever its weight alone exceeds the positive
threshold. -/
theorem C3_gating (dev : DevPriv) (jiffies : Nat) (pin : HpdPin) :
    (∀ long_hpd : Bool, dev.hotplug.hpd_storm_threshold = 0 →
        intel_hpd_irq_storm_detect dev jiffies pin long_hpd = (dev, false)) ∧
    (dev.hotplug.hpd_short_storm_enabled = false →
        intel_hpd_irq_storm_detect dev jiffies pin false = (dev, false)) ∧
    (dev.hotplug.hpd_short_storm_enabled = false →
        0 < dev.hotplug.hpd_storm_threshold → dev.hotplug.hpd_storm_threshold < 10 →
        (intel_hpd_irq_storm_detect dev jiffies pin true).2 = true) := by
    refine ⟨?_, ?_, ?_⟩
    · intro long_hpd h0
      unfold intel_hpd_irq_storm_detect
      rw [if_pos (Or.inl h0)]
    · intro hsh
      unfold intel_hpd_irq_storm_detect
      rw [if_pos (Or.inr ⟨rfl, hsh⟩)]
    · intro _ hT hT10
      have hgate : ¬ (dev.hotplug.hpd_storm_threshold = 0 ∨
          ((true : Bool) = false ∧ dev.hotplug.hpd_short_storm_enabled = false)) := by
        rintro (h0 | ⟨hl, _⟩)
        · omega
        · cases hl
      have h10 : (if (true : Bool) = true then (10 : Nat) else 1) = 10 := rfl
      have hcmp : dev.hotplug.hpd_storm_threshold <
          ((storm_count_hpd dev jiffies pin true).stats pin).count := by
        rw [storm_count_self, h10]
        split <;> omega
      unfold intel_hpd_irq_storm_detect
      rw [if_neg hgate, if_pos hcmp]

/-- Witness for C3: on devC (threshold 0) a long pulse is ignored outright. -/
theorem C3_gating_witness :
    intel_hpd_irq_storm_detect devC 0 HpdPin.HPD_PORT_A true = (devC, false) :=
  (C3_gating devC 0 HpdPin.HPD_PORT_A).1 true rfl

/- ------------------------------------------------------------------ -/
/- Lemmas about the interrupt handler's per-pin iteration.            -/
/- ------------------------------------------------------------------ -/

@[simp] theorem record_dig_stats (d : DevPriv) (i : HpdPin) (L : Bool) :
    (record_dig_port d i L).hotplug.stats = d.hotplug.stats := by
  unfold record_dig_port; split <;> rfl

@[simp] theorem record_dig_event_bits (d : DevPriv) (i : HpdPin) (L : Bool) :
    (record_dig_port d i L).hotplug.event_bits = d.hotplug.event_bits := by
  unfold record_dig_port; split <;> rfl

@[simp] theorem record_dig_threshold (d : DevPriv) (i : HpdPin) (L : Bool) :
    (record_dig_port d i L).hotplug.hpd_storm_threshold = d.hotplug.hpd_storm_threshold := by
  unfold record_dig_port; split <;> rfl

@[simp] theorem record_dig_short_enabled (d : DevPriv) (i : HpdPin) (L : Bool) :
    (record_dig_port d i L).hotplug.hpd_short_storm_enabled
      = d.hotplug.hpd_short_storm_enabled := by
  unfold record_dig_port; split <;> rfl

@[simp] theorem record_dig_irq_port (d : DevPriv) (i : HpdPin) (L : Bool) :
    (record_dig_port d i L).hotplug.irq_port = d.hotplug.irq_port := by
  unfold record_dig_port; split <;> rfl

@[simp] theorem record_dig_is_cnl (d : DevPriv) (i : HpdPin) (L : Bool) :
    (record_dig_port d i L).is_cnl_with_port_f = d.is_cnl_with_port_f := by
  unfold record_dig_port; split <;> rfl

@[simp] theorem record_dig_display (d : DevPriv) (i : HpdPin) (L : Bool) :
    (record_dig_port d i L).display_irqs_enabled = d.display_irqs_enabled := by
  unfold record_dig_port; split <;> rfl

theorem record_dig_long_mono (d : DevPriv) (i : HpdPin) (L : Bool) (k : Nat)
    (h : d.hotplug.long_port_mask.testBit k = true) :
    (record_dig_port d i L).hotplug.long_port_mask.testBit k = true := by
  unfold record_dig_port; split
  · exact testBit_or_BIT_mono _ _ _ h
  · exact h

theorem record_dig_short_mono (d : DevPriv) (i : HpdPin) (L : Bool) (k : Nat)
    (h : d.hotplug.short_port_mask.testBit k = true) :
    (record_dig_port d i L).hotplug.short_port_mask.testBit k = true := by
  unfold record_dig_port; split
  · exact h
  · exact testBit_or_BIT_mono _ _ _ h

theorem record_dig_long_self (d : DevPriv) (i : HpdPin) :
    (record_dig_port d i true).hotplug.long_port_mask.testBit
      (intel_hpd_pin_to_port d.is_cnl_with_port_f i).toNat = true := by
  unfold record_dig_port
  simp [Nat.testBit_lor, testBit_BIT]

theorem record_dig_short_self (d : DevPriv) (i : HpdPin) :
    (record_dig_port d i false).hotplug.short_port_mask.testBit
      (intel_hpd_pin_to_port d.is_cnl_with_port_f i).toNat = true := by
  unfold record_dig_port
  simp [Nat.testBit_lor, testBit_BIT]

@[simp] theorem set_event_bit_stats (d : DevPriv) (i : HpdPin) :
    (set_event_bit d i).hotplug.stats = d.hotplug.stats := rfl

@[simp] theorem set_event_bit_bits (d : DevPriv) (i : HpdPin) :
    (set_event_bit d i).hotplug.event_bits = d.hotplug.event_bits ||| BIT i.toNat := rfl

@[simp] theorem set_event_bit_long (d : DevPriv) (i : HpdPin) :
    (set_event_bit d i).hotplug.long_port_mask = d.hotplug.long_port_mask := rfl

@[simp] theorem set_event_bit_short (d : DevPriv) (i : HpdPin) :
    (set_event_bit d i).hotplug.short_port_mask = d.hotplug.short_port_mask := rfl

@[simp] theorem set_event_bit_threshold (d : DevPriv) (i : HpdPin) :
    (set_event_bit d i).hotplug.hpd_storm_threshold = d.hotplug.hpd_storm_threshold := rfl

@[simp] theorem set_event_bit_short_enabled (d : DevPriv) (i : HpdPin) :
    (set_event_bit d i).hotplug.hpd_short_storm_enabled
      = d.hotplug.hpd_short_storm_enabled := rfl

@[simp] theorem set_event_bit_irq_port (d : DevPriv) (i : HpdPin) :
    (set_event_bit d i).hotplug.irq_port = d.hotplug.irq_port := rfl

@[simp] theorem set_event_bit_is_cnl (d : DevPriv) (i : HpdPin) :
    (set_event_bit d i).is_cnl_with_port_f = d.is_cnl_with_port_f := rfl

@[simp] theorem set_event_bit_display (d : DevPriv) (i : HpdPin) :
    (set_event_bit d i).display_irqs_enabled = d.display_irqs_enabled := rfl

@[simp] theorem clear_event_bit_stats (d : DevPriv) (i : HpdPin) :
    (clear_event_bit d i).hotplug.stats = d.hotplug.stats := rfl

@[simp] theorem clear_event_bit_bits (d : DevPriv) (i : HpdPin) :
    (clear_event_bit d i).hotplug.event_bits
      = clear_bit32 d.hotplug.event_bits i.toNat := rfl

@[simp] theorem clear_event_bit_long (d : DevPriv) (i : HpdPin) :
    (clear_event_bit d i).hotplug.long_port_mask = d.hotplug.long_port_mask := rfl

@[simp] theorem clear_event_bit_short (d : DevPriv) (i : HpdPin) :
    (clear_event_bit d i).hotplug.short_port_mask = d.hotplug.short_port_mask := rfl

@[simp] theorem clear_event_bit_threshold (d : DevPriv) (i : HpdPin) :
    (clear_event_bit d i).hotplug.hpd_storm_threshold = d.hotplug.hpd_storm_threshold := rfl

@[simp] theorem clear_event_bit_short_enabled (d : DevPriv) (i : HpdPin) :
    (clear_event_bit d i).hotplug.hpd_short_storm_enabled
      = d.hotplug.hpd_short_storm_enabled := rfl

@[simp] theorem clear_event_bit_irq_port (d : DevPriv) (i : HpdPin) :
    (clear_event_bit d i).hotplug.irq_port = d.hotplug.irq_port := rfl

@[simp] theorem clear_event_bit_is_cnl (d : DevPriv) (i : HpdPin) :
    (clear_event_bit d i).is_cnl_with_port_f = d.is_cnl_with_port_f := rfl

@[simp] theorem clear_event_bit_display (d : DevPriv) (i : HpdPin) :
    (clear_event_bit d i).display_irqs_enabled = d.display_irqs_enabled := rfl

theorem is_dig_port_congr (d1 d2 : DevPriv) (i : HpdPin)
    (hq : d1.hotplug.irq_port = d2.hotplug.irq_port)
    (hc : d1.is_cnl_with_port_f = d2.is_cnl_with_port_f) :
    is_dig_port d1 i = is_dig_port d2 i := by
  unfold is_dig_port
  rw [hq, hc]

theorem hpd_long_flag_congr (d1 d2 : DevPriv) (lm : Nat) (i : HpdPin)
    (hq : d1.hotplug.irq_port = d2.hotplug.irq_port)
    (hc : d1.is_cnl_with_port_f = d2.is_cnl_with_port_f) :
    hpd_long_flag d1 lm i = hpd_long_flag d2 lm i := by
  unfold hpd_long_flag
  rw [is_dig_port_congr d1 d2 i hq hc]

@[simp] theorem irq_step_dig_stats (lm : Nat) (s : IrqLoopState) (i : HpdPin) :
    (irq_step_dig lm s i).dev.hotplug.stats = s.dev.hotplug.stats := by
  unfold irq_step_dig; split <;> simp

@[simp] theorem irq_step_dig_event_bits (lm : Nat) (s : IrqLoopState) (i : HpdPin) :
    (irq_step_dig lm s i).dev.hotplug.event_bits = s.dev.hotplug.event_bits := by
  unfold irq_step_dig; split <;> simp

@[simp] theorem irq_step_dig_threshold (lm : Nat) (s : IrqLoopState) (i : HpdPin) :
    (irq_step_dig lm s i).dev.hotplug.hpd_storm_threshold
      = s.dev.hotplug.hpd_storm_threshold := by
  unfold irq_step_dig; split <;> simp

@[simp] theorem irq_step_dig_short_enabled (lm : Nat) (s : IrqLoopState) (i : HpdPin) :
    (irq_step_dig lm s i).dev.hotplug.hpd_short_storm_enabled
      = s.dev.hotplug.hpd_short_storm_enabled := by
  unfold irq_step_dig; split <;> simp

@[simp] theorem irq_step_dig_irq_port (lm : Nat) (s : IrqLoopState) (i : HpdPin) :
    (irq_step_dig lm s i).dev.hotplug.irq_port = s.dev.hotplug.irq_port := by
  unfold irq_step_dig; split <;> simp

@[simp] theorem irq_step_dig_is_cnl (lm : Nat) (s : IrqLoopState) (i : HpdPin) :
    (irq_step_dig lm s i).dev.is_cnl_with_port_f = s.dev.is_cnl_with_port_f := by
  unfold irq_step_dig; split <;> simp

@[simp] theorem irq_step_dig_display (lm : Nat) (s : IrqLoopState) (i : HpdPin) :
    (irq_step_dig lm s i).dev.display_irqs_enabled = s.dev.display_irqs_enabled := by
  unfold irq_step_dig; split <;> simp

@[simp] theorem irq_step_dig_queue_hp (lm : Nat) (s : IrqLoopState) (i : HpdPin) :
    (irq_step_dig lm s i).queue_hp = s.queue_hp := by
  unfold irq_step_dig; split <;> rfl

@[simp] theorem irq_step_dig_storm (lm : Nat) (s : IrqLoopState) (i : HpdPin) :
    (irq_step_dig lm s i).storm_detected = s.storm_detected := by
  unfold irq_step_dig; split <;> rfl

theorem irq_step_dig_long_mono (lm : Nat) (s : IrqLoopState) (i : HpdPin) (k : Nat)
    (h : s.dev.hotplug.long_port_mask.testBit k = true) :
    (irq_step_dig lm s i).dev.hotplug.long_port_mask.testBit k = true := by
  unfold irq_step_dig; split
  · exact record_dig_long_mono _ _ _ _ h
  · exact h

theorem irq_step_dig_short_mono (lm : Nat) (s : IrqLoopState) (i : HpdPin) (k : Nat)
    (h : s.dev.hotplug.short_port_mask.testBit k = true) :
    (irq_step_dig lm s i).dev.hotplug.short_port_mask.testBit k = true := by
  unfold irq_step_dig; split
  · exact record_dig_short_mono _ _ _ _ h
  · exact h

theorem irq_step_dig_sets_long (lm : Nat) (s : IrqLoopState) (i : HpdPin)
    (hdig : is_dig_port s.dev i = true) (hl : hpd_long_flag s.dev lm i = true) :
    (irq_step_dig lm s i).dev.hotplug.long_port_mask.testBit
      (intel_hpd_pin_to_port s.dev.is_cnl_with_port_f i).toNat = true := by
  unfold irq_step_dig
  rw [if_pos hdig, hl]
  exact record_dig_long_self s.dev i

theorem irq_step_dig_sets_short (lm : Nat) (s : IrqLoopState) (i : HpdPin)
    (hdig : is_dig_port s.dev i = true) (hl : hpd_long_flag s.dev lm i = false) :
    (irq_step_dig lm s i).dev.hotplug.short_port_mask.testBit
      (intel_hpd_pin_to_port s.dev.is_cnl_with_port_f i).toNat = true := by
  unfold irq_step_dig
  rw [if_pos hdig, hl]
  exact record_dig_short_self s.dev i

@[simp] theorem irq_step_mid_stats (s1 : IrqLoopState) (i : HpdPin) (dig : Bool) :
    (irq_step_mid s1 i dig).dev.hotplug.stats = s1.dev.hotplug.stats := by
  unfold irq_step_mid; split <;> simp

@[simp] theorem irq_step_mid_threshold (s1 : IrqLoopState) (i : HpdPin) (dig : Bool) :
    (irq_step_mid s1 i dig).dev.hotplug.hpd_storm_threshold
      = s1.dev.hotplug.hpd_storm_threshold := by
  unfold irq_step_mid; split <;> simp

@[simp] theorem irq_step_mid_short_enabled (s1 : IrqLoopState) (i : HpdPin) (dig : Bool) :
    (irq_step_mid s1 i dig).dev.hotplug.hpd_short_storm_enabled
      = s1.dev.hotplug.hpd_short_storm_enabled := by
  unfold irq_step_mid; split <;> simp

@[simp] theorem irq_step_mid_irq_port (s1 : IrqLoopState) (i : HpdPin) (dig : Bool) :
    (irq_step_mid s1 i dig).dev.hotplug.irq_port = s1.dev.hotplug.irq_port := by
  unfold irq_step_mid; split <;> simp

@[simp] theorem irq_step_mid_is_cnl (s1 : IrqLoopState) (i : HpdPin) (dig : Bool) :
    (irq_step_mid s1 i dig).dev.is_cnl_with_port_f = s1.dev.is_cnl_with_port_f := by
  unfold irq_step_mid; split <;> simp

@[simp] theorem irq_step_mid_display (s1 : IrqLoopState) (i : HpdPin) (dig : Bool) :
    (irq_step_mid s1 i dig).dev.display_irqs_enabled = s1.dev.display_irqs_enabled := by
  unfold irq_step_mid; split <;> simp

@[simp] theorem irq_step_mid_long (s1 : IrqLoopState) (i : HpdPin) (dig : Bool) :
    (irq_step_mid s1 i dig).dev.hotplug.long_port_mask = s1.dev.hotplug.long_port_mask := by
  unfold irq_step_mid; split <;> simp

@[simp] theorem irq_step_mid_short (s1 : IrqLoopState) (i : HpdPin) (dig : Bool) :
    (irq_step_mid s1 i dig).dev.hotplug.short_port_mask = s1.dev.hotplug.short_port_mask := by
  unfold irq_step_mid; split <;> simp

@[simp] theorem irq_step_mid_storm (s1 : IrqLoopState) (i : HpdPin) (dig : Bool) :
    (irq_step_mid s1 i dig).storm_detected = s1.storm_detected := by
  unfold irq_step_mid; split <;> rfl

theorem irq_step_mid_queue_hp_mono (s1 : IrqLoopState) (i : HpdPin) (dig : Bool)
    (h : s1.queue_hp = true) : (irq_step_mid s1 i dig).queue_hp = true := by
  unfold irq_step_mid; split <;> simp [h]

theorem irq_step_mid_event_bit_frame (s1 : IrqLoopState) (i : HpdPin) (dig : Bool)
    (k : Nat) (hk : i.toNat ≠ k) :
    (irq_step_mid s1 i dig).dev.hotplug.event_bits.testBit k
      = s1.dev.hotplug.event_bits.testBit k := by
  unfold irq_step_mid; split <;> simp [testBit_or_BIT_ne _ _ _ hk]

theorem irq_step_tail_stats_frame (j : Nat) (s1 : IrqLoopState) (i : HpdPin)
    (dig L : Bool) (q : HpdPin) (hq : q ≠ i) :
    (irq_step_tail j s1 i dig L).dev.hotplug.stats q = s1.dev.hotplug.stats q := by
  unfold irq_step_tail
  split <;> simp [detect_fst_stats_ne _ _ _ _ _ hq]

@[simp] theorem irq_step_tail_threshold (j : Nat) (s1 : IrqLoopState) (i : HpdPin)
    (dig L : Bool) :
    (irq_step_tail j s1 i dig L).dev.hotplug.hpd_storm_threshold
      = s1.dev.hotplug.hpd_storm_threshold := by
  unfold irq_step_tail; split <;> simp

@[simp] theorem irq_step_tail_short_enabled (j : Nat) (s1 : IrqLoopState) (i : HpdPin)
    (dig L : Bool) :
    (irq_step_tail j s1 i dig L).dev.hotplug.hpd_short_storm_enabled
      = s1.dev.hotplug.hpd_short_storm_enabled := by
  unfold irq_step_tail; split <;> simp

@[simp] theorem irq_step_tail_irq_port (j : Nat) (s1 : IrqLoopState) (i : HpdPin)
    (dig L : Bool) :
    (irq_step_tail j s1 i dig L).dev.hotplug.irq_port = s1.dev.hotplug.irq_port := by
  unfold irq_step_tail; split <;> simp

@[simp] theorem irq_step_tail_is_cnl (j : Nat) (s1 : IrqLoopState) (i : HpdPin)
    (dig L : Bool) :
    (irq_step_tail j s1 i dig L).dev.is_cnl_with_port_f = s1.dev.is_cnl_with_port_f := by
  unfold irq_step_tail; split <;> simp

@[simp] theorem irq_step_tail_display (j : Nat) (s1 : IrqLoopState) (i : HpdPin)
    (dig L : Bool) :
    (irq_step_tail j s1 i dig L).dev.display_irqs_enabled
      = s1.dev.display_irqs_enabled := by
  unfold irq_step_tail; split <;> simp

@[simp] theorem irq_step_tail_long (j : Nat) (s1 : IrqLoopState) (i : HpdPin)
    (dig L : Bool) :
    (irq_step_tail j s1 i dig L).dev.hotplug.long_port_mask
      = s1.dev.hotplug.long_port_mask := by
  unfold irq_step_tail; split <;> simp

@[simp] theorem irq_step_tail_short (j : Nat) (s1 : IrqLoopState) (i : HpdPin)
    (dig L : Bool) :
    (irq_step_tail j s1 i dig L).dev.hotplug.short_port_mask
      = s1.dev.hotplug.short_port_mask := by
  unfold irq_step_tail; split <;> simp

theorem irq_step_tail_queue_hp_mono (j : Nat) (s1 : IrqLoopState) (i : HpdPin)
    (dig L : Bool) (h : s1.queue_hp = true) :
    (irq_step_tail j s1 i dig L).queue_hp = true := by
  unfold irq_step_tail; split
  · rfl
  · exact irq_step_mid_queue_hp_mono _ _ _ h

theorem irq_step_tail_event_bit_frame (j : Nat) (s1 : IrqLoopState) (i : HpdPin)
    (dig L : Bool) (k : Nat) (h32 : k < 32) (hk : i.toNat ≠ k) :
    (irq_step_tail j s1 i dig L).dev.hotplug.event_bits.testBit k
      = s1.dev.hotplug.event_bits.testBit k := by
  unfold irq_step_tail
  split <;>
    simp [testBit_clear_bit32_ne _ _ _ h32 hk, irq_step_mid_event_bit_frame _ _ _ _ hk]

theorem irq_step_tail_on_storm (j : Nat) (s1 : IrqLoopState) (i : HpdPin)
    (dig L : Bool) (h32 : i.toNat < 32)
    (hst : (intel_hpd_irq_storm_detect s1.dev j i L).2 = true) :
    (irq_step_tail j s1 i dig L).dev.hotplug.event_bits.testBit i.toNat = false ∧
    (irq_step_tail j s1 i dig L).queue_hp = true := by
  have hcong : (intel_hpd_irq_storm_detect (irq_step_mid s1 i dig).dev j i L).2
      = (intel_hpd_irq_storm_detect s1.dev j i L).2 :=
    detect_snd_congr _ _ _ _ _ (by simp) (by simp) (by simp)
  unfold irq_step_tail
  rw [if_pos (hcong.trans hst)]
  exact ⟨by simp [testBit_clear_bit32_self _ _ h32], rfl⟩

theorem irq_step_not_fired (j pm lm : Nat) (s : IrqLoopState) (i : HpdPin)
    (h : pm.testBit i.toNat = false) :
    intel_hpd_irq_handler_step j pm lm s i = s := by
  unfold intel_hpd_irq_handler_step
  rw [if_pos h]

theorem irq_step_stats_frame (j pm lm : Nat) (s : IrqLoopState) (i q : HpdPin)
    (hq : q ≠ i) :
    (intel_hpd_irq_handler_step j pm lm s i).dev.hotplug.stats q
      = s.dev.hotplug.stats q := by
  unfold intel_hpd_irq_handler_step
  split_ifs
  · rfl
  · simp
  · rw [irq_step_tail_stats_frame _ _ _ _ _ _ hq]
    simp
  · simp

theorem irq_step_threshold (j pm lm : Nat) (s : IrqLoopState) (i : HpdPin) :
    (intel_hpd_irq_handler_step j pm lm s i).dev.hotplug.hpd_storm_threshold
      = s.dev.hotplug.hpd_storm_threshold := by
  unfold intel_hpd_irq_handler_step
  split_ifs <;> simp

theorem irq_step_short_enabled (j pm lm : Nat) (s : IrqLoopState) (i : HpdPin) :
    (intel_hpd_irq_handler_step j pm lm s i).dev.hotplug.hpd_short_storm_enabled
      = s.dev.hotplug.hpd_short_storm_enabled := by
  unfold intel_hpd_irq_handler_step
  split_ifs <;> simp

theorem irq_step_irq_port (j pm lm : Nat) (s : IrqLoopState) (i : HpdPin) :
    (intel_hpd_irq_handler_step j pm lm s i).dev.hotplug.irq_port
      = s.dev.hotplug.irq_port := by
  unfold intel_hpd_irq_handler_step
  split_ifs <;> simp

theorem irq_step_is_cnl (j pm lm : Nat) (s : IrqLoopState) (i : HpdPin) :
    (intel_hpd_irq_handler_step j pm lm s i).dev.is_cnl_with_port_f
      = s.dev.is_cnl_with_port_f := by
  unfold intel_hpd_irq_handler_step
  split_ifs <;> simp

theorem irq_step_event_bit_frame (j pm lm : Nat) (s : IrqLoopState) (i : HpdPin)
    (k : Nat) (h32 : k < 32) (hk : i.toNat ≠ k) :
    (intel_hpd_irq_handler_step j pm lm s i).dev.hotplug.event_bits.testBit k
      = s.dev.hotplug.event_bits.testBit k := by
  unfold intel_hpd_irq_handler_step
  split_ifs
  · rfl
  · simp
  · rw [irq_step_tail_event_bit_frame _ _ _ _ _ _ h32 hk]
    simp
  · simp

theorem irq_step_queue_hp_mono (j pm lm : Nat) (s : IrqLoopState) (i : HpdPin)
    (h : s.queue_hp = true) :
    (intel_hpd_irq_handler_step j pm lm s i).queue_hp = true := by
  unfold intel_hpd_irq_handler_step
  split_ifs
  · exact h
  · simpa using h
  · exact irq_step_tail_queue_hp_mono _ _ _ _ _ (by simpa using h)
  · simpa using h

theorem irq_step_long_mask_mono (j pm lm : Nat) (s : IrqLoopState) (i : HpdPin)
    (k : Nat) (h : s.dev.hotplug.long_port_mask.testBit k = true) :
    (intel_hpd_irq_handler_step j pm lm s i).dev.hotplug.long_port_mask.testBit k
      = true := by
  unfold intel_hpd_irq_handler_step
  split_ifs
  · exact h
  · exact irq_step_dig_long_mono _ _ _ _ h
  · rw [irq_step_tail_long]
    exact irq_step_dig_long_mono _ _ _ _ h
  · exact irq_step_dig_long_mono _ _ _ _ h

theorem irq_step_short_mask_mono (j pm lm : Nat) (s : IrqLoopState) (i : HpdPin)
    (k : Nat) (h : s.dev.hotplug.short_port_mask.testBit k = true) :
    (intel_hpd_irq_handler_step j pm lm s i).dev.hotplug.short_port_mask.testBit k
      = true := by
  unfold intel_hpd_irq_handler_step
  split_ifs
  · exact h
  · exact irq_step_dig_short_mono _ _ _ _ h
  · rw [irq_step_tail_short]
    exact irq_step_dig_short_mono _ _ _ _ h
  · exact irq_step_dig_short_mono _ _ _ _ h

theorem irq_step_self_storm (j pm lm : Nat) (s : IrqLoopState) (i : HpdPin)
    (h32 : i.toNat < 32)
    (hf : pm.testBit i.toNat = true)
    (hen : (s.dev.hotplug.stats i).state = HpdState.HPD_ENABLED)
    (hst : (intel_hpd_irq_storm_detect s.dev j i (hpd_long_flag s.dev lm i)).2 = true) :
    (intel_hpd_irq_handler_step j pm lm s i).dev.hotplug.event_bits.testBit i.toNat
        = false ∧
    (intel_hpd_irq_handler_step j pm lm s i).queue_hp = true := by
  have hdstats : (irq_step_dig lm s i).dev.hotplug.stats i = s.dev.hotplug.stats i := by
    simp
  have hst' : (intel_hpd_irq_storm_detect (irq_step_dig lm s i).dev j i
      (hpd_long_flag s.dev lm i)).2 = true := by
    rw [detect_snd_congr (irq_step_dig lm s i).dev s.dev j i _ hdstats (by simp) (by simp)]
    exact hst
  unfold intel_hpd_irq_handler_step
  rw [if_neg (by simp [hf])]
  rw [if_neg (by rw [hdstats, hen]; decide)]
  rw [if_neg (by rw [hdstats, hen]; simp)]
  exact irq_step_tail_on_storm j _ i _ _ h32 hst'

theorem irq_step_self_not_enabled (j pm lm : Nat) (s : IrqLoopState) (i : HpdPin)
    (hf : pm.testBit i.toNat = true)
    (hne : ¬ (s.dev.hotplug.stats i).state = HpdState.HPD_ENABLED) :
    intel_hpd_irq_handler_step j pm lm s i = irq_step_dig lm s i := by
  have hdstats : (irq_step_dig lm s i).dev.hotplug.stats i = s.dev.hotplug.stats i := by
    simp
  unfold intel_hpd_irq_handler_step
  rw [if_neg (by simp [hf])]
  by_cases hd : ((irq_step_dig lm s i).dev.hotplug.stats i).state = HpdState.HPD_DISABLED
  · rw [if_pos hd]
  · rw [if_neg hd, if_pos (by rw [hdstats]; exact hne)]

theorem irq_fold_stats_frame (j pm lm : Nat) :
    ∀ (L : List HpdPin) (s : IrqLoopState) (q : HpdPin), q ∉ L →
    ((L.foldl (intel_hpd_irq_handler_step j pm lm) s).dev.hotplug.stats q)
      = s.dev.hotplug.stats q := by
  intro L
  induction L with
  | nil => intro s q _; rfl
  | cons a t ih =>
    intro s q hq
    rw [List.mem_cons] at hq
    push_neg at hq
    rw [List.foldl_cons, ih _ _ hq.2]
    exact irq_step_stats_frame j pm lm s a q hq.1

theorem irq_fold_event_bit_frame (j pm lm : Nat) :
    ∀ (L : List HpdPin) (s : IrqLoopState) (q : HpdPin), q ∉ L → q.toNat < 32 →
    ((L.foldl (intel_hpd_irq_handler_step j pm lm) s).dev.hotplug.event_bits.testBit q.toNat)
      = s.dev.hotplug.event_bits.testBit q.toNat := by
  intro L
  induction L with
  | nil => intro s q _ _; rfl
  | cons a t ih =>
    intro s q hq h32
    rw [List.mem_cons] at hq
    push_neg at hq
    rw [List.foldl_cons, ih _ _ hq.2 h32]
    exact irq_step_event_bit_frame j pm lm s a q.toNat h32
      (fun h => hq.1 (HpdPin.toNat_inj a q h).symm)

theorem irq_fold_queue_hp_mono (j pm lm : Nat) :
    ∀ (L : List HpdPin) (s : IrqLoopState), s.queue_hp = true →
    (L.foldl (intel_hpd_irq_handler_step j pm lm) s).queue_hp = true := by
  intro L
  induction L with
  | nil => intro s h; exact h
  | cons a t ih =>
    intro s h
    rw [List.foldl_cons]
    exact ih _ (irq_step_queue_hp_mono j pm lm s a h)

theorem irq_fold_long_mask_mono (j pm lm : Nat) :
    ∀ (L : List HpdPin) (s : IrqLoopState) (k : Nat),
    s.dev.hotplug.long_port_mask.testBit k = true →
    ((L.foldl (intel_hpd_irq_handler_step j pm lm) s).dev.hotplug.long_port_mask.testBit k)
      = true := by
  intro L
  induction L with
  | nil => intro s k h; exact h
  | cons a t ih =>
    intro s k h
    rw [List.foldl_cons]
    exact ih _ _ (irq_step_long_mask_mono j pm lm s a k h)

theorem irq_fold_short_mask_mono (j pm lm : Nat) :
    ∀ (L : List HpdPin) (s : IrqLoopState) (k : Nat),
    s.dev.hotplug.short_port_mask.testBit k = true →
    ((L.foldl (intel_hpd_irq_handler_step j pm lm) s).dev.hotplug.short_port_mask.testBit k)
      = true := by
  intro L
  induction L with
  | nil => intro s k h; exact h
  | cons a t ih =>
    intro s k h
    rw [List.foldl_cons]
    exact ih _ _ (irq_step_short_mask_mono j pm lm s a k h)

theorem irq_fold_storm_clears (j pm lm : Nat) (dev : DevPriv) :
    ∀ (L : List HpdPin) (s : IrqLoopState) (i : HpdPin),
    L.Nodup → i ∈ L → i.toNat < 32 → agreeOn dev s.dev i →
    (dev.hotplug.stats i).state = HpdState.HPD_ENABLED →
    (intel_hpd_irq_storm_detect dev j i (hpd_long_flag dev lm i)).2 = true →
    pm.testBit i.toNat = true →
    (((L.foldl (intel_hpd_irq_handler_step j pm lm) s).dev.hotplug.event_bits.testBit i.toNat)
        = false ∧
     (L.foldl (intel_hpd_irq_handler_step j pm lm) s).queue_hp = true) := by
  intro L
  induction L with
  | nil => intro s i _ hi; exact absurd hi (List.not_mem_nil i)
  | cons a t ih =>
    intro s i hnd hi h32 hag hen hst hf
    obtain ⟨hs, ht', hsh, hip, hcn⟩ := hag
    rw [List.foldl_cons]
    rcases List.mem_cons.mp hi with rfl | hit
    · have hen' : (s.dev.hotplug.stats i).state = HpdState.HPD_ENABLED := by
        rw [hs]; exact hen
      have hlf : hpd_long_flag s.dev lm i = hpd_long_flag dev lm i :=
        hpd_long_flag_congr s.dev dev lm i hip hcn
      have hst' : (intel_hpd_irq_storm_detect s.dev j i (hpd_long_flag s.dev lm i)).2
          = true := by
        rw [hlf, detect_snd_congr s.dev dev j i _ hs ht' hsh]
        exact hst
      have hmain := irq_step_self_storm j pm lm s i h32 hf hen' hst'
      have hnotin : i ∉ t := (List.nodup_cons.mp hnd).1
      refine ⟨?_, irq_fold_queue_hp_mono j pm lm t _ hmain.2⟩
      rw [irq_fold_event_bit_frame j pm lm t _ i hnotin h32]
      exact hmain.1
    · have hia : i ≠ a := fun h => (List.nodup_cons.mp hnd).1 (h ▸ hit)
      refine ih _ i (List.nodup_cons.mp hnd).2 hit h32 ⟨?_, ?_, ?_, ?_, ?_⟩ hen hst hf
      · rw [irq_step_stats_frame j pm lm s a i hia]; exact hs
      · rw [irq_step_threshold]; exact ht'
      · rw [irq_step_short_enabled]; exact hsh
      · rw [irq_step_irq_port]; exact hip
      · rw [irq_step_is_cnl]; exact hcn

theorem irq_fold_skip_not_enabled (j pm lm : Nat) (dev : DevPriv) :
    ∀ (L : List HpdPin) (s : IrqLoopState) (i : HpdPin),
    L.Nodup → i ∈ L → i.toNat < 32 → agreeOn dev s.dev i →
    ¬ (dev.hotplug.stats i).state = HpdState.HPD_ENABLED →
    pm.testBit i.toNat = true →
    (((L.foldl (intel_hpd_irq_handler_step j pm lm) s).dev.hotplug.stats i)
        = s.dev.hotplug.stats i ∧
     ((L.foldl (intel_hpd_irq_handler_step j pm lm) s).dev.hotplug.event_bits.testBit i.toNat)
        = s.dev.hotplug.event_bits.testBit i.toNat ∧
     (is_dig_port dev i = true →
       (hpd_long_flag dev lm i = true →
          ((L.foldl (intel_hpd_irq_handler_step j pm lm) s).dev.hotplug.long_port_mask.testBit
            (intel_hpd_pin_to_port dev.is_cnl_with_port_f i).toNat) = true) ∧
       (hpd_long_flag dev lm i = false →
          ((L.foldl (intel_hpd_irq_handler_step j pm lm) s).dev.hotplug.short_port_mask.testBit
            (intel_hpd_pin_to_port dev.is_cnl_with_port_f i).toNat) = true))) := by
  intro L
  induction L with
  | nil => intro s i _ hi; exact absurd hi (List.not_mem_nil i)
  | cons a t ih =>
    intro s i hnd hi h32 hag hne hf
    obtain ⟨hs, ht', hsh, hip, hcn⟩ := hag
    rw [List.foldl_cons]
    rcases List.mem_cons.mp hi with rfl | hit
    · have hne' : ¬ (s.dev.hotplug.stats i).state = HpdState.HPD_ENABLED := by
        rw [hs]; exact hne
      have hstep : intel_hpd_irq_handler_step j pm lm s i = irq_step_dig lm s i :=
        irq_step_self_not_enabled j pm lm s i hf hne'
      have hnotin : i ∉ t := (List.nodup_cons.mp hnd).1
      rw [hstep]
      refine ⟨?_, ?_, ?_⟩
      · rw [irq_fold_stats_frame j pm lm t _ i hnotin]
        simp
      · rw [irq_fold_event_bit_frame j pm lm t _ i hnotin h32]
        simp
      · intro hdig
        have hdig' : is_dig_port s.dev i = true := by
          rw [is_dig_port_congr s.dev dev i hip hcn]; exact hdig
        constructor
        · intro hl
          have hl' : hpd_long_flag s.dev lm i = true := by
            rw [hpd_long_flag_congr s.dev dev lm i hip hcn]; exact hl
          have hset := irq_step_dig_sets_long lm s i hdig' hl'
          rw [hcn] at hset
          exact irq_fold_long_mask_mono j pm lm t _ _ hset
        · intro hl
          have hl' : hpd_long_flag s.dev lm i = false := by
            rw [hpd_long_flag_congr s.dev dev lm i hip hcn]; exact hl
          have hset := irq_step_dig_sets_short lm s i hdig' hl'
          rw [hcn] at hset
          exact irq_fold_short_mask_mono j pm lm t _ _ hset
    · have hia : i ≠ a := fun h => (List.nodup_cons.mp hnd).1 (h ▸ hit)
      have hrec := ih (intel_hpd_irq_handler_step j pm lm s a) i
        (List.nodup_cons.mp hnd).2 hit h32
        ⟨by rw [irq_step_stats_frame j pm lm s a i hia]; exact hs,
         by rw [irq_step_threshold]; exact ht',
         by rw [irq_step_short_enabled]; exact hsh,
         by rw [irq_step_irq_port]; exact hip,
         by rw [irq_step_is_cnl]; exact hcn⟩ hne hf
      refine ⟨?_, ?_, hrec.2.2⟩
      · rw [hrec.1, irq_step_stats_frame j pm lm s a i hia]
      · rw [hrec.2.1, irq_step_event_bit_frame j pm lm s a i.toNat h32
          (fun h => hia (HpdPin.toNat_inj a i h).symm)]

/- ------------------------------------------------------------------ -/
/- Claims about the interrupt dispatcher.                             -/
/- ------------------------------------------------------------------ -/

/-- Claim C4: in the interrupt dispatcher, for every fired pin (one of the
pins visited by the loop) that is enabled and on which the storm detector
reports a storm (with the long/short classification the handler derives for
that pin), the dispatcher clears that pin's bit from the pending
generic-event bitmask and nevertheless marks generic work pending, so the
generic hot-plug deferred task is enqueued for that dispatch. -/
theorem C4_storm_suppresses_event (dev : DevPriv) (jiffies pin_mask long_mask : Nat)
    (i : HpdPin)
    (hpin : i ∈ hpdPins)
    (hf : pin_mask.testBit i.toNat = true)
    (hen : (dev.hotplug.stats i).state = HpdState.HPD_ENABLED)
    (hst : (intel_hpd_irq_storm_detect dev jiffies i
        (hpd_long_flag dev long_mask i)).2 = true) :
    (intel_hpd_irq_handler dev jiffies pin_mask long_mask).dev.hotplug.event_bits.testBit
        i.toNat = false ∧
    (intel_hpd_irq_handler dev jiffies pin_mask long_mask).queue_hp = true := by
  have hmask : ¬ pin_mask = 0 := by
    intro h
    rw [h, Nat.zero_testBit] at hf
    cases hf
  have hmain := irq_fold_storm_clears jiffies pin_mask long_mask dev hpdPins
    ⟨dev, false, false, false⟩ i hpdPins_nodup hpin (HpdPin.toNat_lt_32 i)
    ⟨rfl, rfl, rfl, rfl, rfl⟩ hen hst hf
  unfold intel_hpd_irq_handler
  rw [if_neg hmask]
  exact hmain

/-- Witness for C4: on devA, firing pin HPD_PORT_A (bit 4, so mask 16) as a
long pulse storms at once (threshold 5 < weight 10); the handler leaves bit 4
clear in event_bits and enqueues the generic work. -/
theorem C4_storm_suppresses_event_witness :
    (intel_hpd_irq_handler devA 0 16 16).dev.hotplug.event_bits.testBit
        HpdPin.HPD_PORT_A.toNat = false ∧
    (intel_hpd_irq_handler devA 0 16 16).queue_hp = true :=
  C4_storm_suppresses_event devA 0 16 16 HpdPin.HPD_PORT_A (by decide) (by decide)
    rfl (by decide)

/-- Claim C5: in the interrupt dispatcher, a fired pin whose state is not
Enabled (Disabled or AutoDisabled) neither gets its bit set in the
generic-event bitmask nor has the storm detector run on it — its stats entry
and its event-bit are unchanged by the dispatch — although for a digital pin
the per-port long/short mask recording of step 1 still takes place. -/
theorem C5_skip_not_enabled (dev : DevPriv) (jiffies pin_mask long_mask : Nat)
    (i : HpdPin)
    (hpin : i ∈ hpdPins)
    (hf : pin_mask.testBit i.toNat = true)
    (hne : ¬ (dev.hotplug.stats i).state = HpdState.HPD_ENABLED) :
    ((intel_hpd_irq_handler dev jiffies pin_mask long_mask).dev.hotplug.stats i
        = dev.hotplug.stats i) ∧
    ((intel_hpd_irq_handler dev jiffies pin_mask long_mask).dev.hotplug.event_bits.testBit
        i.toNat = dev.hotplug.event_bits.testBit i.toNat) ∧
    (is_dig_port dev i = true →
      (hpd_long_flag dev long_mask i = true →
        ((intel_hpd_irq_handler dev jiffies pin_mask long_mask).dev.hotplug.long_port_mask.testBit
          (intel_hpd_pin_to_port dev.is_cnl_with_port_f i).toNat) = true) ∧
      (hpd_long_flag dev long_mask i = false →
        ((intel_hpd_irq_handler dev jiffies pin_mask long_mask).dev.hotplug.short_port_mask.testBit
          (intel_hpd_pin_to_port dev.is_cnl_with_port_f i).toNat) = true)) := by
  have hmask : ¬ pin_mask = 0 := by
    intro h
    rw [h, Nat.zero_testBit] at hf
    cases hf
  have hmain := irq_fold_skip_not_enabled jiffies pin_mask long_mask dev hpdPins
    ⟨dev, false, false, false⟩ i hpdPins_nodup hpin (HpdPin.toNat_lt_32 i)
    ⟨rfl, rfl, rfl, rfl, rfl⟩ hne hf
  unfold intel_hpd_irq_handler
  rw [if_neg hmask]
  exact hmain

/-- Witness for C5: on devJ pin HPD_PORT_A is AutoDisabled and its port is a
registered digital port; firing it long leaves its stats and its event bit
untouched while still recording the long pulse for PORT_A in the long port
mask. -/
theorem C5_skip_not_enabled_witness :
    ((intel_hpd_irq_handler devJ 0 16 16).dev.hotplug.stats HpdPin.HPD_PORT_A
        = devJ.hotplug.stats HpdPin.HPD_PORT_A) ∧
    ((intel_hpd_irq_handler devJ 0 16 16).dev.hotplug.event_bits.testBit
        HpdPin.HPD_PORT_A.toNat
      = devJ.hotplug.event_bits.testBit HpdPin.HPD_PORT_A.toNat) ∧
    (is_dig_port devJ HpdPin.HPD_PORT_A = true →
      (hpd_long_flag devJ 16 HpdPin.HPD_PORT_A = true →
        ((intel_hpd_irq_handler devJ 0 16 16).dev.hotplug.long_port_mask.testBit
          (intel_hpd_pin_to_port devJ.is_cnl_with_port_f HpdPin.HPD_PORT_A).toNat) = true) ∧
      (hpd_long_flag devJ 16 HpdPin.HPD_PORT_A = false →
        ((intel_hpd_irq_handler devJ 0 16 16).dev.hotplug.short_port_mask.testBit
          (intel_hpd_pin_to_port devJ.is_cnl_with_port_f HpdPin.HPD_PORT_A).toNat) = true)) :=
  C5_skip_not_enabled devJ 0 16 16 HpdPin.HPD_PORT_A (by decide) (by decide) (by decide)

/- ------------------------------------------------------------------ -/
/- Claims about the pin state machine (intel_hpd_disable).            -/
/- ------------------------------------------------------------------ -/

/- ------------------------------------------------------------------ -/
/- Lemmas about the polling fallback pass.                            -/
/- ------------------------------------------------------------------ -/

theorem switch_step_skip_polled (st : SwitchLoopState) (c : Connector)
    (h : ¬ c.polled = DRM_CONNECTOR_POLL_HPD) :
    switchConnStep st c = { st with conns := st.conns ++ [c] } := by
  unfold switchConnStep
  rw [if_pos h]

theorem switch_step_skip_encoder (st : SwitchLoopState) (c : Connector)
    (h1 : c.polled = DRM_CONNECTOR_POLL_HPD) (h2 : c.encoder = none) :
    switchConnStep st c = { st with conns := st.conns ++ [c] } := by
  unfold switchConnStep
  simp only [if_neg (not_not_intro h1), h2]

theorem switch_step_skip_state (st : SwitchLoopState) (c : Connector) (q : HpdPin)
    (h1 : c.polled = DRM_CONNECTOR_POLL_HPD) (h2 : c.encoder = some q)
    (h3 : q = HpdPin.HPD_NONE ∨ (st.hpd.stats q).state ≠ HpdState.HPD_MARK_DISABLED) :
    switchConnStep st c = { st with conns := st.conns ++ [c] } := by
  unfold switchConnStep
  simp only [if_neg (not_not_intro h1), h2]
  rw [if_pos h3]

theorem switch_step_on_match (st : SwitchLoopState) (c : Connector) (q : HpdPin)
    (h1 : c.polled = DRM_CONNECTOR_POLL_HPD) (h2 : c.encoder = some q)
    (h3 : ¬ q = HpdPin.HPD_NONE)
    (h4 : (st.hpd.stats q).state = HpdState.HPD_MARK_DISABLED) :
    switchConnStep st c =
      { hpd := st.hpd.updStat q (fun s => { s with state := HpdState.HPD_DISABLED }),
        conns := st.conns ++
          [{ c with polled := DRM_CONNECTOR_POLL_CONNECT ||| DRM_CONNECTOR_POLL_DISCONNECT }],
        hpd_disabled := true } := by
  unfold switchConnStep
  simp only [if_neg (not_not_intro h1), h2]
  rw [if_neg (fun h => h.elim h3 (fun hb => hb h4))]

theorem switch_step_stats_no_match (st : SwitchLoopState) (c : Connector) (p : HpdPin)
    (h : ¬ (c.polled = DRM_CONNECTOR_POLL_HPD ∧ c.encoder = some p)) :
    (switchConnStep st c).hpd.stats p = st.hpd.stats p := by
  by_cases h1 : c.polled = DRM_CONNECTOR_POLL_HPD
  · cases hce : c.encoder with
    | none => rw [switch_step_skip_encoder st c h1 hce]
    | some q =>
      have hqp : q ≠ p := by
        intro he
        exact h ⟨h1, by rw [hce, he]⟩
      by_cases h3 : q = HpdPin.HPD_NONE ∨ (st.hpd.stats q).state ≠ HpdState.HPD_MARK_DISABLED
      · rw [switch_step_skip_state st c q h1 hce h3]
      · push_neg at h3
        rw [switch_step_on_match st c q h1 hce h3.1 h3.2]
        simp [hqp.symm]
  · rw [switch_step_skip_polled st c h1]

theorem switch_step_disabled_mono (st : SwitchLoopState) (c : Connector) (p : HpdPin)
    (h : (st.hpd.stats p).state = HpdState.HPD_DISABLED) :
    ((switchConnStep st c).hpd.stats p).state = HpdState.HPD_DISABLED := by
  by_cases h1 : c.polled = DRM_CONNECTOR_POLL_HPD
  · cases hce : c.encoder with
    | none => rw [switch_step_skip_encoder st c h1 hce]; exact h
    | some q =>
      by_cases h3 : q = HpdPin.HPD_NONE ∨ (st.hpd.stats q).state ≠ HpdState.HPD_MARK_DISABLED
      · rw [switch_step_skip_state st c q h1 hce h3]; exact h
      · push_neg at h3
        have hq4 := h3.2
        have hqp : q ≠ p := by
          intro he
          rw [he, h] at hq4
          cases hq4
        rw [switch_step_on_match st c q h1 hce h3.1 hq4]
        simp [hqp.symm, h]
  · rw [switch_step_skip_polled st c h1]; exact h

theorem switch_step_flag_mono (st : SwitchLoopState) (c : Connector)
    (h : st.hpd_disabled = true) : (switchConnStep st c).hpd_disabled = true := by
  by_cases h1 : c.polled = DRM_CONNECTOR_POLL_HPD
  · cases hce : c.encoder with
    | none => rw [switch_step_skip_encoder st c h1 hce]; exact h
    | some q =>
      by_cases h3 : q = HpdPin.HPD_NONE ∨ (st.hpd.stats q).state ≠ HpdState.HPD_MARK_DISABLED
      · rw [switch_step_skip_state st c q h1 hce h3]; exact h
      · push_neg at h3
        rw [switch_step_on_match st c q h1 hce h3.1 h3.2]
  · rw [switch_step_skip_polled st c h1]; exact h

theorem switch_step_conns_mono (st : SwitchLoopState) (c : Connector) (x : Connector)
    (h : x ∈ st.conns) : x ∈ (switchConnStep st c).conns := by
  by_cases h1 : c.polled = DRM_CONNECTOR_POLL_HPD
  · cases hce : c.encoder with
    | none =>
      rw [switch_step_skip_encoder st c h1 hce]
      exact List.mem_append_left _ h
    | some q =>
      by_cases h3 : q = HpdPin.HPD_NONE ∨ (st.hpd.stats q).state ≠ HpdState.HPD_MARK_DISABLED
      · rw [switch_step_skip_state st c q h1 hce h3]
        exact List.mem_append_left _ h
      · push_neg at h3
        rw [switch_step_on_match st c q h1 hce h3.1 h3.2]
        exact List.mem_append_left _ h
  · rw [switch_step_skip_polled st c h1]
    exact List.mem_append_left _ h

theorem switch_fold_disabled_mono :
    ∀ (L : List Connector) (st : SwitchLoopState) (p : HpdPin),
    (st.hpd.stats p).state = HpdState.HPD_DISABLED →
    (((L.foldl switchConnStep st).hpd.stats p).state = HpdState.HPD_DISABLED) := by
  intro L
  induction L with
  | nil => intro st p h; exact h
  | cons a t ih =>
    intro st p h
    rw [List.foldl_cons]
    exact ih _ _ (switch_step_disabled_mono st a p h)

theorem switch_fold_flag_mono :
    ∀ (L : List Connector) (st : SwitchLoopState), st.hpd_disabled = true →
    ((L.foldl switchConnStep st).hpd_disabled = true) := by
  intro L
  induction L with
  | nil => intro st h; exact h
  | cons a t ih =>
    intro st h
    rw [List.foldl_cons]
    exact ih _ (switch_step_flag_mono st a h)

theorem switch_fold_conns_mono :
    ∀ (L : List Connector) (st : SwitchLoopState) (x : Connector), x ∈ st.conns →
    x ∈ (L.foldl switchConnStep st).conns := by
  intro L
  induction L with
  | nil => intro st x h; exact h
  | cons a t ih =>
    intro st x h
    rw [List.foldl_cons]
    exact ih _ _ (switch_step_conns_mono st a x h)

theorem switch_fold_main :
    ∀ (L : List Connector) (st : SwitchLoopState) (p : HpdPin),
    (∃ c ∈ L, c.polled = DRM_CONNECTOR_POLL_HPD ∧ c.encoder = some p) →
    p ≠ HpdPin.HPD_NONE →
    (st.hpd.stats p).state = HpdState.HPD_MARK_DISABLED →
    ((((L.foldl switchConnStep st).hpd.stats p).state = HpdState.HPD_DISABLED) ∧
     (∃ c2 ∈ (L.foldl switchConnStep st).conns,
        c2.encoder = some p ∧
        c2.polled = DRM_CONNECTOR_POLL_CONNECT ||| DRM_CONNECTOR_POLL_DISCONNECT) ∧
     ((L.foldl switchConnStep st).hpd_disabled = true)) := by
  intro L
  induction L with
  | nil =>
    intro st p hex
    obtain ⟨c, hc, _⟩ := hex
    exact absurd hc (List.not_mem_nil c)
  | cons a t ih =>
    intro st p hex hp hmark
    rw [List.foldl_cons]
    by_cases hmatch : a.polled = DRM_CONNECTOR_POLL_HPD ∧ a.encoder = some p
    · rw [switch_step_on_match st a p hmatch.1 hmatch.2 hp hmark]
      refine ⟨?_, ?_, ?_⟩
      · apply switch_fold_disabled_mono
        simp
      · refine ⟨{ a with polled := DRM_CONNECTOR_POLL_CONNECT ||| DRM_CONNECTOR_POLL_DISCONNECT },
          ?_, hmatch.2, rfl⟩
        apply switch_fold_conns_mono
        simp
      · apply switch_fold_flag_mono
        rfl
    · obtain ⟨c, hc, hcp⟩ := hex
      have hct : c ∈ t := by
        rcases List.mem_cons.mp hc with rfl | hct
        · exact absurd hcp hmatch
        · exact hct
      refine ih _ p ⟨c, hct, hcp⟩ hp ?_
      rw [switch_step_stats_no_match st a p hmatch]
      exact hmark

/-- Counterexample to claim C7 as stated: on devD pin HPD_PORT_A is
AutoDisabled but no connector refers to it (the connector list is empty); the
polling-fallback pass leaves the pin in HPD_MARK_DISABLED — it is not
transitioned to Disabled — and does not schedule the re-enable task. -/
theorem C7_switch_counterexample :
    ((devD.hotplug.stats HpdPin.HPD_PORT_A).state = HpdState.HPD_MARK_DISABLED) ∧
    (((intel_hpd_irq_storm_switch_to_polling devD).dev.hotplug.stats
        HpdPin.HPD_PORT_A).state = HpdState.HPD_MARK_DISABLED) ∧
    ((intel_hpd_irq_storm_switch_to_polling devD).dev.hotplug.reenable_timer = none) := by
  decide

/-- Claim C7 (amended): in the polling-fallback pass, every AutoDisabled pin
that is the hpd pin of some connector currently in pure hotplug polling mode
(polled = DRM_CONNECTOR_POLL_HPD, with an encoder) is transitioned to
Disabled and some connector of that pin ends in connect/disconnect polling
mode; since a pin was switched, periodic polling is enabled and the delayed
re-enable task is scheduled with the fixed delay, replacing any existing
schedule (the pending-timer model holds at most one instance). -/
theorem C7_switch_to_polling (dev : DevPriv) (p : HpdPin) (c : Connector)
    (hc : c ∈ dev.connectors) (hpol : c.polled = DRM_CONNECTOR_POLL_HPD)
    (henc : c.encoder = some p) (hp : p ≠ HpdPin.HPD_NONE)
    (hst : (dev.hotplug.stats p).state = HpdState.HPD_MARK_DISABLED) :
    (((intel_hpd_irq_storm_switch_to_polling dev).dev.hotplug.stats p).state
        = HpdState.HPD_DISABLED) ∧
    (∃ c2 ∈ (intel_hpd_irq_storm_switch_to_polling dev).dev.connectors,
        c2.encoder = some p ∧
        c2.polled = DRM_CONNECTOR_POLL_CONNECT ||| DRM_CONNECTOR_POLL_DISCONNECT) ∧
    ((intel_hpd_irq_storm_switch_to_polling dev).poll_enable_called = true) ∧
    ((intel_hpd_irq_storm_switch_to_polling dev).dev.hotplug.reenable_timer
        = some (msecs_to_jiffies HPD_STORM_REENABLE_DELAY)) := by
  obtain ⟨h1, h2, h3⟩ := switch_fold_main dev.connectors ⟨dev.hotplug, [], false⟩ p
    ⟨c, hc, hpol, henc⟩ hp hst
  unfold intel_hpd_irq_storm_switch_to_polling
  rw [if_pos h3]
  exact ⟨h1, h2, rfl, rfl⟩

/-- Witness for C7 (amended): on devF, pin HPD_PORT_A is AutoDisabled and the
hotplug-polled connector connF sits on it; the pass disables the pin,
switches the connector to connect/disconnect polling, enables polling and
schedules the re-enable work. -/
theorem C7_switch_to_polling_witness :
    (((intel_hpd_irq_storm_switch_to_polling devF).dev.hotplug.stats
        HpdPin.HPD_PORT_A).state = HpdState.HPD_DISABLED) ∧
    (∃ c2 ∈ (intel_hpd_irq_storm_switch_to_polling devF).dev.connectors,
        c2.encoder = some HpdPin.HPD_PORT_A ∧
        c2.polled = DRM_CONNECTOR_POLL_CONNECT ||| DRM_CONNECTOR_POLL_DISCONNECT) ∧
    ((intel_hpd_irq_storm_switch_to_polling devF).poll_enable_called = true) ∧
    ((intel_hpd_irq_storm_switch_to_polling devF).dev.hotplug.reenable_timer
        = some (msecs_to_jiffies HPD_STORM_REENABLE_DELAY)) :=
  C7_switch_to_polling devF HpdPin.HPD_PORT_A connF (by decide) rfl rfl
    (by decide) (by decide)

/- ------------------------------------------------------------------ -/
/- Lemmas about the delayed re-enable pass.                           -/
/- ------------------------------------------------------------------ -/

theorem reenable_step_skip (st : ReenableLoopState) (i : HpdPin)
    (h : ¬ (st.hpd.stats i).state = HpdState.HPD_DISABLED) :
    reenablePinStep st i = st := by
  unfold reenablePinStep
  rw [if_pos h]

theorem reenable_step_active (st : ReenableLoopState) (i : HpdPin)
    (h : (st.hpd.stats i).state = HpdState.HPD_DISABLED) :
    reenablePinStep st i =
      { hpd := st.hpd.updStat i (fun s => { s with state := HpdState.HPD_ENABLED }),
        conns := st.conns.map (reenableConnUpdate i) } := by
  unfold reenablePinStep
  rw [if_neg (not_not_intro h)]

theorem reenable_upd_skip (i : HpdPin) (c : Connector)
    (h : ¬ (c.mst_port = false ∧ c.encoder = some i)) :
    reenableConnUpdate i c = c := by
  unfold reenableConnUpdate
  rw [if_neg h]

theorem reenable_step_stats_frame (st : ReenableLoopState) (j p : HpdPin)
    (hj : j ≠ p) :
    (reenablePinStep st j).hpd.stats p = st.hpd.stats p := by
  by_cases h : (st.hpd.stats j).state = HpdState.HPD_DISABLED
  · rw [reenable_step_active st j h]
    simp [hj.symm]
  · rw [reenable_step_skip st j h]

theorem reenable_step_enabled_mono (st : ReenableLoopState) (j p : HpdPin)
    (h : (st.hpd.stats p).state = HpdState.HPD_ENABLED) :
    ((reenablePinStep st j).hpd.stats p).state = HpdState.HPD_ENABLED := by
  by_cases hj : j = p
  · subst hj
    rw [reenable_step_skip st j (by rw [h]; decide)]
    exact h
  · rw [reenable_step_stats_frame st j p hj]
    exact h

theorem reenable_fold_enabled_mono :
    ∀ (L : List HpdPin) (st : ReenableLoopState) (p : HpdPin),
    (st.hpd.stats p).state = HpdState.HPD_ENABLED →
    (((L.foldl reenablePinStep st).hpd.stats p).state = HpdState.HPD_ENABLED) := by
  intro L
  induction L with
  | nil => intro st p h; exact h
  | cons a t ih =>
    intro st p h
    rw [List.foldl_cons]
    exact ih _ _ (reenable_step_enabled_mono st a p h)

theorem reenable_fold_turns_on :
    ∀ (L : List HpdPin) (st : ReenableLoopState) (p : HpdPin),
    L.Nodup → p ∈ L → (st.hpd.stats p).state = HpdState.HPD_DISABLED →
    (((L.foldl reenablePinStep st).hpd.stats p).state = HpdState.HPD_ENABLED) := by
  intro L
  induction L with
  | nil => intro st p _ hp; exact absurd hp (List.not_mem_nil p)
  | cons a t ih =>
    intro st p hnd hp hdis
    rw [List.foldl_cons]
    rcases List.mem_cons.mp hp with rfl | hpt
    · apply reenable_fold_enabled_mono
      rw [reenable_step_active st p hdis]
      simp
    · have hap : a ≠ p := fun h => (List.nodup_cons.mp hnd).1 (h ▸ hpt)
      refine ih _ p (List.nodup_cons.mp hnd).2 hpt ?_
      rw [reenable_step_stats_frame st a p hap]
      exact hdis

theorem reenable_fold_conns_frame :
    ∀ (L : List HpdPin) (st : ReenableLoopState) (k : Nat) (c : Connector) (p : HpdPin),
    p ∉ L → st.conns[k]? = some c → c.encoder = some p →
    ((L.foldl reenablePinStep st).conns[k]? = some c) := by
  intro L
  induction L with
  | nil => intro st k c p _ hk _; exact hk
  | cons a t ih =>
    intro st k c p hp hk henc
    rw [List.mem_cons] at hp
    push_neg at hp
    rw [List.foldl_cons]
    refine ih _ k c p hp.2 ?_ henc
    by_cases h : (st.hpd.stats a).state = HpdState.HPD_DISABLED
    · rw [reenable_step_active st a h]
      have : (st.conns.map (reenableConnUpdate a))[k]? = some (reenableConnUpdate a c) := by
        rw [List.getElem?_map, hk]
        rfl
      rw [this, reenable_upd_skip a c ?_]
      intro hcon
      rw [henc] at hcon
      exact hp.1 (Option.some.inj hcon.2)
    · rw [reenable_step_skip st a h]
      exact hk

theorem reenable_fold_restores :
    ∀ (L : List HpdPin) (st : ReenableLoopState) (k : Nat) (c : Connector) (p : HpdPin),
    L.Nodup → p ∈ L → st.conns[k]? = some c → c.mst_port = false → c.encoder = some p →
    (st.hpd.stats p).state = HpdState.HPD_DISABLED →
    ((L.foldl reenablePinStep st).conns[k]?
      = some { c with polled :=
          if c.intel_polled = 0 then DRM_CONNECTOR_POLL_HPD else c.intel_polled }) := by
  intro L
  induction L with
  | nil => intro st k c p _ hp; exact absurd hp (List.not_mem_nil p)
  | cons a t ih =>
    intro st k c p hnd hp hk hmst henc hdis
    rw [List.foldl_cons]
    rcases List.mem_cons.mp hp with rfl | hpt
    · have hnotin : p ∉ t := (List.nodup_cons.mp hnd).1
      rw [reenable_step_active st p hdis]
      refine reenable_fold_conns_frame t _ k _ p hnotin ?_ henc
      rw [List.getElem?_map, hk, Option.map_some']
      unfold reenableConnUpdate
      rw [if_pos ⟨hmst, henc⟩]
    · have hap : a ≠ p := fun h => (List.nodup_cons.mp hnd).1 (h ▸ hpt)
      refine ih _ k c p (List.nodup_cons.mp hnd).2 hpt ?_ hmst henc ?_
      · by_cases h : (st.hpd.stats a).state = HpdState.HPD_DISABLED
        · rw [reenable_step_active st a h]
          have : (st.conns.map (reenableConnUpdate a))[k]?
              = some (reenableConnUpdate a c) := by
            rw [List.getElem?_map, hk]
            rfl
          rw [this, reenable_upd_skip a c ?_]
          intro hcon
          rw [henc] at hcon
          exact hap (Option.some.inj hcon.2).symm
        · rw [reenable_step_skip st a h]
          exact hk
      · rw [reenable_step_stats_frame st a p hap]
        exact hdis

theorem reenable_fold_noop :
    ∀ (L : List HpdPin) (st : ReenableLoopState),
    (∀ p ∈ L, ¬ (st.hpd.stats p).state = HpdState.HPD_DISABLED) →
    L.foldl reenablePinStep st = st := by
  intro L
  induction L with
  | nil => intro st _; rfl
  | cons a t ih =>
    intro st h
    rw [List.foldl_cons, reenable_step_skip st a (h a (List.mem_cons_self a t))]
    exact ih st (fun p hp => h p (List.mem_cons_of_mem a hp))

theorem reenable_work_eq (dev : DevPriv) :
    intel_hpd_irq_storm_reenable_work dev =
      { dev := { dev with
          hotplug := (hpdPins.foldl reenablePinStep ⟨dev.hotplug, dev.connectors⟩).hpd,
          connectors := (hpdPins.foldl reenablePinStep ⟨dev.hotplug, dev.connectors⟩).conns },
        hpd_irq_setup_calls :=
          if dev.display_irqs_enabled = true ∧ dev.hpd_irq_setup_present = true
          then 1 else 0 } := rfl

theorem reenable_work_dev_hotplug (dev : DevPriv) :
    (intel_hpd_irq_storm_reenable_work dev).dev.hotplug
      = (hpdPins.foldl reenablePinStep ⟨dev.hotplug, dev.connectors⟩).hpd := by
  rw [reenable_work_eq]

theorem reenable_work_dev_connectors (dev : DevPriv) :
    (intel_hpd_irq_storm_reenable_work dev).dev.connectors
      = (hpdPins.foldl reenablePinStep ⟨dev.hotplug, dev.connectors⟩).conns := by
  rw [reenable_work_eq]

/-- Counterexample to claim C8 as stated: on devA no pin is Disabled (the
stats table is constantly Enabled), yet running the re-enable processor is
not a no-op: it still invokes the interrupt-mask reprogramming hook once
(display interrupts are enabled and the hook is present). -/
theorem C8_reenable_counterexample :
    devA.hotplug.stats = (fun _ => ⟨0, 0, HpdState.HPD_ENABLED⟩) ∧
    (intel_hpd_irq_storm_reenable_work devA).hpd_irq_setup_calls = 1 := by
  exact ⟨rfl, by decide⟩

/-- Claim C8 (amended): the delayed re-enable processor transitions every
Disabled pin (storm-induced or administrative) to Enabled; every non-MST
connector sitting on such a pin gets its stored polling preference back,
defaulting to hotplug polling when no preference was stored; the
interrupt-mask hook is invoked exactly once per pass whenever display
interrupts are active and the hook is present — even when no pin was
Disabled — and when no pin is Disabled the device state (pins, connectors,
masks, timer) is left entirely unchanged. -/
theorem C8_reenable (dev : DevPriv) :
    (∀ p : HpdPin, p ∈ hpdPins →
       (dev.hotplug.stats p).state = HpdState.HPD_DISABLED →
       (((intel_hpd_irq_storm_reenable_work dev).dev.hotplug.stats p).state
          = HpdState.HPD_ENABLED)) ∧
    (∀ (k : Nat) (c : Connector) (p : HpdPin),
       dev.connectors[k]? = some c → c.mst_port = false → c.encoder = some p →
       p ∈ hpdPins → (dev.hotplug.stats p).state = HpdState.HPD_DISABLED →
       ((intel_hpd_irq_storm_reenable_work dev).dev.connectors[k]?
          = some { c with polled :=
              if c.intel_polled = 0 then DRM_CONNECTOR_POLL_HPD else c.intel_polled })) ∧
    ((intel_hpd_irq_storm_reenable_work dev).hpd_irq_setup_calls
        = if dev.display_irqs_enabled = true ∧ dev.hpd_irq_setup_present = true
          then 1 else 0) ∧
    ((∀ p ∈ hpdPins, ¬ (dev.hotplug.stats p).state = HpdState.HPD_DISABLED) →
       (intel_hpd_irq_storm_reenable_work dev).dev = dev) := by
  refine ⟨?_, ?_, rfl, ?_⟩
  · intro p hp hdis
    rw [reenable_work_dev_hotplug]
    exact reenable_fold_turns_on hpdPins ⟨dev.hotplug, dev.connectors⟩ p
      hpdPins_nodup hp hdis
  · intro k c p hk hmst henc hp hdis
    rw [reenable_work_dev_connectors]
    exact reenable_fold_restores hpdPins ⟨dev.hotplug, dev.connectors⟩ k c p
      hpdPins_nodup hp hk hmst henc hdis
  · intro h
    have hx : (intel_hpd_irq_storm_reenable_work dev).dev
        = { dev with
            hotplug := (hpdPins.foldl reenablePinStep ⟨dev.hotplug, dev.connectors⟩).hpd,
            connectors :=
              (hpdPins.foldl reenablePinStep ⟨dev.hotplug, dev.connectors⟩).conns } := by
      rw [reenable_work_eq]
    rw [hx, reenable_fold_noop hpdPins ⟨dev.hotplug, dev.connectors⟩ h]

/-- Witness for C8 (amended): on devH (pin HPD_PORT_A Disabled, connector
connH on it with no stored preference, interrupts active, hook present) the
pass re-enables the pin, restores the connector to hotplug polling and
invokes the hook once. -/
theorem C8_reenable_witness :
    (((intel_hpd_irq_storm_reenable_work devH).dev.hotplug.stats
        HpdPin.HPD_PORT_A).state = HpdState.HPD_ENABLED) ∧
    ((intel_hpd_irq_storm_reenable_work devH).dev.connectors[0]?
        = some { connH with polled :=
            if connH.intel_polled = 0 then DRM_CONNECTOR_POLL_HPD
            else connH.intel_polled }) ∧
    ((intel_hpd_irq_storm_reenable_work devH).hpd_irq_setup_calls
        = if devH.display_irqs_enabled = true ∧ devH.hpd_irq_setup_present = true
          then 1 else 0) :=
  ⟨(C8_reenable devH).1 HpdPin.HPD_PORT_A (by decide) (by decide),
   (C8_reenable devH).2.1 0 connH HpdPin.HPD_PORT_A rfl rfl rfl (by decide) (by decide),
   (C8_reenable devH).2.2.1⟩

theorem intel_hpd_disable_on_enabled (dev : DevPriv) (pin : HpdPin)
    (hp : pin ≠ HpdPin.HPD_NONE)
    (hen : (dev.hotplug.stats pin).state = HpdState.HPD_ENABLED) :
    intel_hpd_disable dev pin
      = ({ dev with hotplug := (dev.hotplug.updStat pin
          (fun s => { s with state := HpdState.HPD_DISABLED })) }, true) := by
  unfold intel_hpd_disable
  rw [if_neg hp, if_pos hen]

theorem intel_hpd_disable_on_not_enabled (dev : DevPriv) (pin : HpdPin)
    (hp : pin ≠ HpdPin.HPD_NONE)
    (hen : (dev.hotplug.stats pin).state ≠ HpdState.HPD_ENABLED) :
    intel_hpd_disable dev pin = (dev, false) := by
  unfold intel_hpd_disable
  rw [if_neg hp, if_neg hen]

/-- Counterexample to claim C6 as stated: on devD pin HPD_PORT_A is in
HPD_MARK_DISABLED (AutoDisabled); an explicit disable request leaves it in
HPD_MARK_DISABLED, not HPD_DISABLED, and returns false.  Moreover disabling
the HPD_NONE pin of devA, although its stats entry is HPD_ENABLED, is a no-op
returning false, so its state also does not become HPD_DISABLED. -/
theorem C6_disable_counterexample :
    (((intel_hpd_disable devD HpdPin.HPD_PORT_A).1.hotplug.stats HpdPin.HPD_PORT_A).state
        = HpdState.HPD_MARK_DISABLED) ∧
    ((intel_hpd_disable devD HpdPin.HPD_PORT_A).2 = false) ∧
    (((intel_hpd_disable devA HpdPin.HPD_NONE).1.hotplug.stats HpdPin.HPD_NONE).state
        = HpdState.HPD_ENABLED) ∧
    ((intel_hpd_disable devA HpdPin.HPD_NONE).2 = false) := by
  decide

/-- Claim C6 (amended): for every pin other than HPD_NONE, an explicit disable
request from Enabled moves the pin to Disabled and returns true; from any
other state (including AutoDisabled, which stays AutoDisabled) it is a no-op
returning false; the call returns true exactly when it changed the state, and
from Enabled two consecutive calls return true then false with the final state
Disabled. -/
theorem C6_disable_idempotent (dev : DevPriv) (pin : HpdPin)
    (hp : pin ≠ HpdPin.HPD_NONE) :
    ((intel_hpd_disable dev pin).2 = true ↔
        (dev.hotplug.stats pin).state = HpdState.HPD_ENABLED) ∧
    ((intel_hpd_disable dev pin).2 = true →
        ((intel_hpd_disable dev pin).1.hotplug.stats pin).state = HpdState.HPD_DISABLED) ∧
    ((intel_hpd_disable dev pin).2 = false → (intel_hpd_disable dev pin).1 = dev) ∧
    ((dev.hotplug.stats pin).state = HpdState.HPD_ENABLED →
        ((intel_hpd_disable dev pin).1.hotplug.stats pin).state = HpdState.HPD_DISABLED ∧
        (intel_hpd_disable dev pin).2 = true ∧
        (intel_hpd_disable (intel_hpd_disable dev pin).1 pin).2 = false ∧
        ((intel_hpd_disable (intel_hpd_disable dev pin).1 pin).1.hotplug.stats pin).state
          = HpdState.HPD_DISABLED) := by
  by_cases hen : (dev.hotplug.stats pin).state = HpdState.HPD_ENABLED
  · have h1 : intel_hpd_disable dev pin
        = ({ dev with hotplug := (dev.hotplug.updStat pin
            (fun s => { s with state := HpdState.HPD_DISABLED })) }, true) :=
      intel_hpd_disable_on_enabled dev pin hp hen
    have h2 : ((intel_hpd_disable dev pin).1.hotplug.stats pin).state
        = HpdState.HPD_DISABLED := by
      rw [h1]; simp
    have h3 : intel_hpd_disable (intel_hpd_disable dev pin).1 pin
        = ((intel_hpd_disable dev pin).1, false) :=
      intel_hpd_disable_on_not_enabled _ pin hp (by rw [h2]; decide)
    refine ⟨?_, fun _ => h2, ?_, fun _ => ⟨h2, ?_, ?_, ?_⟩⟩
    · rw [h1]; simp [hen]
    · rw [h1]; intro h; simp at h
    · rw [h1]
    · rw [h3]
    · rw [h3]; exact h2
  · have h1 : intel_hpd_disable dev pin = (dev, false) :=
      intel_hpd_disable_on_not_enabled dev pin hp hen
    refine ⟨?_, ?_, fun _ => by rw [h1], fun h => absurd h hen⟩
    · rw [h1]; simp [hen]
    · rw [h1]; intro h; simp at h

/-- Witness for C6 (amended): disabling HPD_PORT_A on devA (Enabled) yields
Disabled and returns true. -/
theorem C6_disable_idempotent_witness :
    ((intel_hpd_disable devA HpdPin.HPD_PORT_A).1.hotplug.stats HpdPin.HPD_PORT_A).state
        = HpdState.HPD_DISABLED ∧
    (intel_hpd_disable devA HpdPin.HPD_PORT_A).2 = true ∧
    (intel_hpd_disable (intel_hpd_disable devA HpdPin.HPD_PORT_A).1 HpdPin.HPD_PORT_A).2
        = false ∧
    ((intel_hpd_disable (intel_hpd_disable devA HpdPin.HPD_PORT_A).1
        HpdPin.HPD_PORT_A).1.hotplug.stats HpdPin.HPD_PORT_A).state
        = HpdState.HPD_DISABLED :=
  (C6_disable_idempotent devA HpdPin.HPD_PORT_A (by decide)).2.2.2 rfl

/- ------------------------------------------------------------------ -/
/- Claims about the pin/port mapping.                                 -/
/- ------------------------------------------------------------------ -/

/-- Counterexample to claim C9 as stated: with the alternate pairing flag set,
pinForPort (intel_hpd_pin_default) on PORT_E returns the pin HPD_PORT_E (a
real pin, not HPD_NONE), yet portForPin (intel_hpd_pin_to_port) on that pin
returns PORT_F, not the original PORT_E: the maps are not mutually inverse on
that variant. -/
theorem C9_mapping_counterexample :
    intel_hpd_pin_default true Port.PORT_E ≠ HpdPin.HPD_NONE ∧
    intel_hpd_pin_to_port true (intel_hpd_pin_default true Port.PORT_E) ≠ Port.PORT_E := by
  decide

/-- Claim C9 (amended): with the alternate pin/port flag clear the two maps
are mutually inverse on all real ports; with the flag set the round trip holds
for every real port except PORT_E, which collapses onto PORT_F (both PORT_E
and PORT_F map to pin HPD_PORT_E, and that pin maps back to PORT_F — the
alternate pairing of the affected pair); unknown values yield PORT_NONE
respectively HPD_NONE on both functions. -/
theorem C9_pin_port_mapping : ∀ (f : Bool) (port : Port),
    (f = false → port ≠ Port.PORT_NONE →
      intel_hpd_pin_to_port false (intel_hpd_pin_default false port) = port) ∧
    (f = true → port ≠ Port.PORT_NONE → port ≠ Port.PORT_E →
      intel_hpd_pin_to_port true (intel_hpd_pin_default true port) = port) ∧
    (intel_hpd_pin_default true Port.PORT_E = HpdPin.HPD_PORT_E ∧
      intel_hpd_pin_to_port true HpdPin.HPD_PORT_E = Port.PORT_F ∧
      intel_hpd_pin_default true Port.PORT_F = HpdPin.HPD_PORT_E) ∧
    (intel_hpd_pin_default f Port.PORT_NONE = HpdPin.HPD_NONE) ∧
    (intel_hpd_pin_to_port f HpdPin.HPD_NONE = Port.PORT_NONE ∧
      intel_hpd_pin_to_port f HpdPin.HPD_CRT = Port.PORT_NONE ∧
      intel_hpd_pin_to_port f HpdPin.HPD_SDVO_B = Port.PORT_NONE ∧
      intel_hpd_pin_to_port f HpdPin.HPD_SDVO_C = Port.PORT_NONE) := by
  intro f port
  cases f <;> cases port <;> exact (by decide)

/-- Witness for C9 (amended): the default round trip on PORT_A. -/
theorem C9_pin_port_mapping_witness :
    intel_hpd_pin_to_port false (intel_hpd_pin_default false Port.PORT_A) = Port.PORT_A :=
  (C9_pin_port_mapping false Port.PORT_A).1 rfl (by decide)

/- ------------------------------------------------------------------ -/
/- Claim C10: empty pin mask.                                         -/
/- ------------------------------------------------------------------ -/

/-- Claim C10: calling the interrupt handler with an empty firedPins mask is a
complete no-op regardless of the long mask: the device (per-pin stats and
states, event bitmask, per-port masks, pending timer, connectors) is returned
verbatim, no storm is recorded, the hpd_irq_setup hook is not called, and
neither deferred work kind is enqueued. -/
theorem C10_empty_mask_noop (dev : DevPriv) (jiffies long_mask : Nat) :
    intel_hpd_irq_handler dev jiffies 0 long_mask = ⟨dev, false, false, false, 0⟩ := rfl

end IntelHotplug
